import Mathlib

/-!
Shallow embedding of the log-analysis pipeline of the gameserver repository.

Sources embedded here:
- `src/analyze_test_logs.py` — `LogEntry`, `AnalysisResult`, `LogAnalyzer`
  (`LOG_PATTERN`, `_parse_line`, `_update_metrics`, `_detect_issues`, `parse`),
  `ReportGenerator.generate_json_report`, `_calculate_summary`, and the
  `main` loop over log files.
- `src/testing/tools/test_framework.py` and `src/tools/test_framework.py` —
  `_analyze_server_log`, `_analyze_client_log`, `_analyze_logs`, and the
  high-baseline-mismatch block of `_generate_agent_summary` /
  `_generate_claude_summary`.

Modelling conventions: Python strings are Lean `String`s (lists of `Char`),
log files are `List String` of lines (the trailing newline that `for line in f`
yields is removed by `str.strip()` in the source, which `pyStrip` models).
Python floats are modelled as exact rationals `ℚ`; machine counters are `Nat`.
Python whitespace (`\s`, `str.strip`, `str.split`) is modelled by its ASCII
subset, which covers the log format. Fallible Python operations (exceptions)
are modelled with `Option` / `Except`.
-/

/-- ASCII whitespace, the subset of Python `str.isspace` / regex `\s`
relevant to the log format: space, tab, newline, carriage return,
vertical tab, form feed. -/
def isWsC (c : Char) : Bool :=
  c = ' ' || c = '\t' || c = '\n' || c = '\r' || c = '\x0b' || c = '\x0c'

/-- Python regex `\d` on ASCII input. -/
def isDigitC (c : Char) : Bool := c.isDigit

/-- Python regex `\w` on ASCII input: letters, digits, underscore. -/
def isWordC (c : Char) : Bool := c.isAlphanum || c = '_'

/-- The character class `[^\]]` of `LOG_PATTERN`. -/
def notRBracket (c : Char) : Bool := c ≠ ']'

/-- The character class `[^|]` of `LOG_PATTERN`. -/
def notPipe (c : Char) : Bool := c ≠ '|'

/-- Python `str.strip()` on a character list (ASCII whitespace). -/
def pyStripList (l : List Char) : List Char :=
  ((l.dropWhile isWsC).reverse.dropWhile isWsC).reverse

/-- Python `str.strip()`. -/
def pyStrip (s : String) : String := ⟨pyStripList s.data⟩

/-- Python `str.lower()` on ASCII input. -/
def pyLower (s : String) : String := ⟨s.data.map Char.toLower⟩

/-- Containment of a contiguous character sequence, on lists. -/
def containsSubList (needle : List Char) : List Char → Bool
  | [] => needle.isEmpty
  | c :: rest => needle.isPrefixOf (c :: rest) || containsSubList needle rest

/-- Python `needle in hay` substring test. -/
def strIn (needle hay : String) : Bool := containsSubList needle.data hay.data

/-- Helper for `pySplitWs`: accumulates the current (reversed) token. -/
def splitWsAux : List Char → List Char → List String
  | [], acc => if acc.isEmpty then [] else [⟨acc.reverse⟩]
  | c :: rest, acc =>
    if isWsC c then
      if acc.isEmpty then splitWsAux rest [] else ⟨acc.reverse⟩ :: splitWsAux rest []
    else splitWsAux rest (c :: acc)

/-- Python `str.split()` with no argument: split on whitespace runs,
dropping empty tokens. -/
def pySplitWs (s : String) : List String := splitWsAux s.data []

/-- Decimal value of a digit list, most significant digit first
(the integer that Python `int`/`float` reads from a digit run). -/
def natOfDigits (l : List Char) : Nat :=
  l.foldl (fun n c => n * 10 + (c.toNat - '0'.toNat)) 0

/-- Index of the first `'|'` in a character list, if any
(where the first `[^|]+` group of `LOG_PATTERN` must stop). -/
def idxOfPipe : List Char → Option Nat
  | [] => none
  | c :: rest => if c = '|' then some 0 else (idxOfPipe rest).map (· + 1)

/-- Matching of the tail `\s+([^|]+)(?:\s*\|\s*(.+))?` of `LOG_PATTERN`
against the remainder of the line, with Python `re.match` leftmost-greedy
backtracking semantics made deterministic:
- `\s+` takes the maximal whitespace run `w` (shrinking only when `[^|]+`
  would otherwise be empty);
- `[^|]+` stops at the first `'|'` (or the end of the string);
- the optional group matches whenever a `'|'` is reachable and at least one
  character follows it, else it matches empty (the overall match need not
  consume the whole string);
- `(.+)` takes everything after the maximal `\s*` run following `'|'`,
  the `\s*` run giving one character back when nothing would remain.
Returns the message group and the optional metadata group. -/
def matchTail (r : List Char) : Option (List Char × Option (List Char)) :=
  let w := (r.takeWhile isWsC).length
  if w = 0 then none
  else
    match idxOfPipe r with
    | none =>
      if w < r.length then some (r.drop w, none)
      else if 2 ≤ r.length then some (r.drop (r.length - 1), none)
      else none
    | some i =>
      if i < 2 then none
      else
        let k := min w (i - 1)
        let msg := (r.drop k).take (i - k)
        let tail := r.drop (i + 1)
        let s := (tail.takeWhile isWsC).length
        let g5 : Option (List Char) :=
          if tail.length = 0 then none
          else if s < tail.length then some (tail.drop s)
          else some (tail.drop (s - 1))
        some (msg, g5)

/-- One literal character of `LOG_PATTERN` (the escaped bracket, dot, and
closing bracket literals): succeeds
exactly when the input starts with that character. -/
def expectChar (c : Char) : List Char → Option (List Char)
  | [] => none
  | x :: rest => if x = c then some rest else none

/-- One maximal-munch `X+` quantifier of `LOG_PATTERN`: the maximal (and
required nonempty) run of class characters, with the remainder. Maximal
munch is exactly the backtracking semantics for each `X+` here, because
every one is followed by a character outside its class, so no shorter
munch can ever succeed. -/
def munch1 (p : Char → Bool) (l : List Char) : Option (List Char × List Char) :=
  let g := l.takeWhile p
  if g.isEmpty then none else some (g, l.dropWhile p)

/-- Matching of `LOG_PATTERN`
anchored at the start of the line (Python `re.match`), as the sequential
composition of its parts; the tail from the third whitespace run and the
message group on is `matchTail`.
Returns the groups: timestamp integer digits, timestamp fraction digits,
level, category, message, optional metadata segment. -/
def matchLogPattern (l : List Char) :
    Option (List Char × List Char × List Char × List Char × List Char × Option (List Char)) :=
  (expectChar '[' l).bind fun l1 =>
  (munch1 isDigitC l1).bind fun (d1, l2) =>
  (expectChar '.' l2).bind fun l3 =>
  (munch1 isDigitC l3).bind fun (d2, l4) =>
  (expectChar ']' l4).bind fun l5 =>
  (munch1 isWsC l5).bind fun (_, l6) =>
  (expectChar '[' l6).bind fun l7 =>
  (munch1 isWordC l7).bind fun (lvl, l8) =>
  (expectChar ']' l8).bind fun l9 =>
  (munch1 isWsC l9).bind fun (_, l10) =>
  (expectChar '[' l10).bind fun l11 =>
  (munch1 notRBracket l11).bind fun (cat, l12) =>
  (expectChar ']' l12).bind fun l13 =>
  (matchTail l13).map fun (msg, meta) => (d1, d2, lvl, cat, msg, meta)

/-- Exact value of the timestamp token `d1.d2` that the Python `float()`
converts (modelled as the exact decimal rational; the binary rounding of
the double is not load-bearing for any property proved here). -/
def ratOfTimestamp (d1 d2 : List Char) : ℚ :=
  (natOfDigits d1 : ℚ) + (natOfDigits d2 : ℚ) / (10 : ℚ) ^ d2.length

/-- Structured log entry (dataclass `LogEntry` of analyze_test_logs.py).
`metadata` is the Python dict as an insertion-ordered association list. -/
structure LogEntry where
  timestamp : ℚ
  level : String
  category : String
  message : String
  metadata : List (String × String)
  raw_line : String
deriving DecidableEq

/-- Python dict assignment `metadata[key] = value`: overwrite in place if the
key exists, else append (insertion order preserved, last write wins). -/
def metadataSet (m : List (String × String)) (k v : String) : List (String × String) :=
  if m.any (fun p => p.1 = k) then m.map (fun p => if p.1 = k then (k, v) else p)
  else m ++ [(k, v)]

/-- Python `pair.split('=', 1)` guarded by `'=' in pair`: `none` when the
token has no `'='`, else the key (before the first `'='`) and value. -/
def splitOnFirstEq (pair : List Char) : Option (String × String) :=
  if pair.contains '=' then
    some (⟨pair.takeWhile (· ≠ '=')⟩, ⟨(pair.dropWhile (· ≠ '=')).tail⟩)
  else none

/-- The metadata loop of `_parse_line`: split the metadata segment on
whitespace, keep tokens containing `'='`, split each on the first `'='`,
assign into the dict (duplicate keys: last occurrence wins). -/
def parseMetadata (s : String) : List (String × String) :=
  (pySplitWs s).foldl
    (fun m pair =>
      match splitOnFirstEq pair.data with
      | some (k, v) => metadataSet m k v
      | none => m)
    []

/-- Embeds `LogAnalyzer._parse_line`: match `LOG_PATTERN` against the line; on
failure return `none` ("not a structured log, skip"); on success build the
`LogEntry` with `float`ed timestamp, stripped message and parsed metadata. -/
def parseLine (line : String) : Option LogEntry :=
  match matchLogPattern line.data with
  | none => none
  | some (d1, d2, lvl, cat, msg, meta) =>
    some { timestamp := ratOfTimestamp d1 d2
           level := ⟨lvl⟩
           category := ⟨cat⟩
           message := pyStrip ⟨msg⟩
           metadata := match meta with
                       | none => []
                       | some m => parseMetadata ⟨m⟩
           raw_line := line }

/-- Analysis results for a single log file (dataclass `AnalysisResult`).
Counters are `Nat`; timestamps are exact rationals. -/
structure AnalysisResult where
  filename : String
  total_lines : Nat := 0
  entries : List LogEntry := []
  errors : Nat := 0
  warnings : Nat := 0
  info : Nat := 0
  debug : Nat := 0
  snapshots_sent : Nat := 0
  snapshots_received : Nat := 0
  packet_loss_events : Nat := 0
  baseline_mismatches : Nat := 0
  player_disappearances : Nat := 0
  interpolation_warnings : Nat := 0
  chunk_changes : Nat := 0
  critical_issues : List String := []
  warnings_list : List String := []
  start_time : ℚ := 0
  end_time : ℚ := 0
deriving DecidableEq

/-- The "count by level" elif chain of `_update_metrics`. -/
def bumpLevels (e : LogEntry) (r : AnalysisResult) : AnalysisResult :=
  if e.level = "ERROR" then { r with errors := r.errors + 1 }
  else if e.level = "WARN" then { r with warnings := r.warnings + 1 }
  else if e.level = "INFO" then { r with info := r.info + 1 }
  else if e.level = "DEBUG" then { r with debug := r.debug + 1 }
  else r

/-- Statement `if entry.category == "SERVER_SNAPSHOT"` of `_update_metrics`. -/
def bumpSent (e : LogEntry) (r : AnalysisResult) : AnalysisResult :=
  if e.category = "SERVER_SNAPSHOT" then { r with snapshots_sent := r.snapshots_sent + 1 }
  else r

/-- Statement `if entry.category == "CLIENT_SNAPSHOT"` of `_update_metrics`. -/
def bumpReceived (e : LogEntry) (r : AnalysisResult) : AnalysisResult :=
  if e.category = "CLIENT_SNAPSHOT" then
    { r with snapshots_received := r.snapshots_received + 1 }
  else r

/-- Statement `if "packet loss" in entry.message.lower()` of `_update_metrics`. -/
def bumpPacketLoss (e : LogEntry) (r : AnalysisResult) : AnalysisResult :=
  if strIn "packet loss" (pyLower e.message) then
    { r with packet_loss_events := r.packet_loss_events + 1 }
  else r

/-- The `CLIENT_DELTA`/"mismatch" statement of `_update_metrics`. -/
def bumpMismatch (e : LogEntry) (r : AnalysisResult) : AnalysisResult :=
  if e.category = "CLIENT_DELTA" ∧ strIn "mismatch" (pyLower e.message) then
    { r with baseline_mismatches := r.baseline_mismatches + 1 }
  else r

/-- The `CLIENT_ERROR`/"missing" statement of `_update_metrics`. -/
def bumpDisappearance (e : LogEntry) (r : AnalysisResult) : AnalysisResult :=
  if e.category = "CLIENT_ERROR" ∧ strIn "missing" (pyLower e.message) then
    { r with player_disappearances := r.player_disappearances + 1 }
  else r

/-- The `INTERPOLATOR`/`WARN` statement of `_update_metrics`. -/
def bumpInterp (e : LogEntry) (r : AnalysisResult) : AnalysisResult :=
  if e.category = "INTERPOLATOR" ∧ e.level = "WARN" then
    { r with interpolation_warnings := r.interpolation_warnings + 1 }
  else r

/-- The `SERVER_CHUNK`/"changed chunk" statement of `_update_metrics`. -/
def bumpChunk (e : LogEntry) (r : AnalysisResult) : AnalysisResult :=
  if e.category = "SERVER_CHUNK" ∧ strIn "changed chunk" (pyLower e.message) then
    { r with chunk_changes := r.chunk_changes + 1 }
  else r

/-- Embeds `LogAnalyzer._update_metrics`: the eight independent classification
statements applied in source order. -/
def updateMetrics (e : LogEntry) (r : AnalysisResult) : AnalysisResult :=
  bumpChunk e (bumpInterp e (bumpDisappearance e (bumpMismatch e
    (bumpPacketLoss e (bumpReceived e (bumpSent e (bumpLevels e r)))))))

/-- One iteration of the `for line in f` loop of `LogAnalyzer.parse`:
count the line, strip it, parse it, and on success append the entry and
update the metrics. -/
def processLine (r : AnalysisResult) (line : String) : AnalysisResult :=
  let r := { r with total_lines := r.total_lines + 1 }
  match parseLine (pyStrip line) with
  | none => r
  | some e => updateMetrics e { r with entries := r.entries ++ [e] }

/-- The fresh `AnalysisResult(filename=str(log_path))` of `LogAnalyzer.__init__`. -/
def initResult (path : String) : AnalysisResult := { filename := path }

/-- The parsing loop of `LogAnalyzer.parse` over the lines of the file. -/
def runParse (path : String) (lines : List String) : AnalysisResult :=
  lines.foldl processLine (initResult path)

/-- The "Calculate timing" step of `LogAnalyzer.parse`: if any structured
entries exist, start/end time are the timestamps of the first/last entry. -/
def setTiming (r : AnalysisResult) : AnalysisResult :=
  match r.entries with
  | [] => r
  | e :: es => { r with start_time := e.timestamp, end_time := (es.getLastD e).timestamp }

/-- Python `f"{q:.1f}"` fixed-point formatting with one decimal digit, for
the nonnegative rates formatted by `_detect_issues` (the tie-rounding mode
of the float formatting is not load-bearing for any claim). -/
def fmtFixed1 (q : ℚ) : String :=
  let n := (q * 10 + 1/2).floor
  toString (n / 10) ++ "." ++ toString (n % 10)

/-- Critical-issue string of `_detect_issues` issue 1 (the two adjacent
f-string literals of the source concatenate). -/
def disappearanceMsg (n : Nat) : String :=
  "Player disappearance detected " ++ toString n ++
    " times! This indicates delta compression bugs or interest management issues."

/-- Warning string of `_detect_issues` issue 2. -/
def interpMsg (n : Nat) : String :=
  "High interpolation warnings (" ++ toString n ++
    "). Client may be struggling to keep buffer filled."

/-- Warning string of `_detect_issues` issue 3, formatting `rate*100` with
one decimal digit. -/
def mismatchMsg (rate : ℚ) : String :=
  "High baseline mismatch rate (" ++ fmtFixed1 (rate * 100) ++
    "%). This is expected for UDP but seems unusually high."

/-- Critical-issue string of `_detect_issues` issue 4. -/
def serverZeroMsg : String :=
  "Server sent 0 snapshots! Server may not be running correctly."

/-- Critical-issue string of `_detect_issues` issue 5. -/
def clientZeroMsg : String :=
  "Client received 0 snapshots! Client may not be connected."

/-- Issue 1 of `_detect_issues`: player disappearances. -/
def issueDisappearance (r : AnalysisResult) : AnalysisResult :=
  if 0 < r.player_disappearances then
    { r with critical_issues :=
        r.critical_issues ++ [disappearanceMsg r.player_disappearances] }
  else r

/-- Issue 2 of `_detect_issues`: high interpolation warnings. -/
def issueInterp (r : AnalysisResult) : AnalysisResult :=
  if 10 < r.interpolation_warnings then
    { r with warnings_list := r.warnings_list ++ [interpMsg r.interpolation_warnings] }
  else r

/-- Issue 3 of `_detect_issues`: high baseline mismatch rate. The rate is
only computed under the `snapshots_received > 0` guard; the float comparison
`mismatch_rate > 0.1` is modelled exactly on rationals. -/
def issueMismatch (r : AnalysisResult) : AnalysisResult :=
  if 0 < r.snapshots_received then
    let rate : ℚ := (r.baseline_mismatches : ℚ) / (r.snapshots_received : ℚ)
    if (1 : ℚ)/10 < rate then
      { r with warnings_list := r.warnings_list ++ [mismatchMsg rate] }
    else r
  else r

/-- Issue 4 of `_detect_issues`: server sent nothing ("server" in the
lowercased path). -/
def issueServer (path : String) (r : AnalysisResult) : AnalysisResult :=
  if r.snapshots_sent = 0 ∧ strIn "server" (pyLower path) = true then
    { r with critical_issues := r.critical_issues ++ [serverZeroMsg] }
  else r

/-- Issue 5 of `_detect_issues`: client received nothing ("client" in the
lowercased path). -/
def issueClient (path : String) (r : AnalysisResult) : AnalysisResult :=
  if r.snapshots_received = 0 ∧ strIn "client" (pyLower path) = true then
    { r with critical_issues := r.critical_issues ++ [clientZeroMsg] }
  else r

/-- Embeds `LogAnalyzer._detect_issues`: the five rules in source order;
`path` is `str(self.log_path)`. -/
def detectIssues (path : String) (r : AnalysisResult) : AnalysisResult :=
  issueClient path (issueServer path (issueMismatch (issueInterp (issueDisappearance r))))

/-- Embeds `LogAnalyzer.parse` for a file whose content is `lines`: count/parse
every line, compute timing, detect issues, and return the result.
This is the finalized `AnalysisResult` of one file. -/
def analyzeFile (path : String) (lines : List String) : AnalysisResult :=
  detectIssues path (setTiming (runParse path lines))

/-! ## Test-framework log analysis (src/testing/tools/test_framework.py and
src/tools/test_framework.py) -/

/-- Python `int(s)` on a token: optional sign then decimal digits
(exotic forms such as underscores are irrelevant to the log format). -/
def parsePyInt (s : String) : Option Int :=
  let l := (pyStrip s).data
  match l with
  | '-' :: rest =>
    if rest ≠ [] ∧ rest.all isDigitC then some (-(natOfDigits rest : Int)) else none
  | '+' :: rest =>
    if rest ≠ [] ∧ rest.all isDigitC then some (natOfDigits rest : Int) else none
  | _ => if l ≠ [] ∧ l.all isDigitC then some (natOfDigits l : Int) else none

/-- Exponent suffix of a Python float literal, applied to the mantissa. -/
def parsePyFloatExp (base : ℚ) (l : List Char) : Option ℚ :=
  match l with
  | [] => some base
  | c :: rest =>
    if c = 'e' ∨ c = 'E' then
      match rest with
      | '-' :: ds =>
        if ds ≠ [] ∧ ds.all isDigitC then some (base / 10 ^ natOfDigits ds) else none
      | '+' :: ds =>
        if ds ≠ [] ∧ ds.all isDigitC then some (base * 10 ^ natOfDigits ds) else none
      | ds =>
        if ds ≠ [] ∧ ds.all isDigitC then some (base * 10 ^ natOfDigits ds) else none
    else none

/-- Python `float(s)` on a finite decimal literal `[sign](d*[.d*])[e[sign]d+]`
with at least one mantissa digit, as an exact rational (`inf`/`nan` and
underscore separators are irrelevant to the log format). -/
def parsePyFloat (s : String) : Option ℚ :=
  let l := (pyStrip s).data
  let signAndRest : ℚ × List Char :=
    match l with
    | '-' :: rest => (-1, rest)
    | '+' :: rest => (1, rest)
    | _ => (1, l)
  let sgn := signAndRest.1
  let l := signAndRest.2
  let ip := l.takeWhile isDigitC
  let l1 := l.dropWhile isDigitC
  match l1 with
  | '.' :: l2 =>
    let fp := l2.takeWhile isDigitC
    if ip.isEmpty ∧ fp.isEmpty then none
    else parsePyFloatExp
      (sgn * ((natOfDigits ip : ℚ) + (natOfDigits fp : ℚ) / 10 ^ fp.length))
      (l2.dropWhile isDigitC)
  | _ =>
    if ip.isEmpty then none
    else parsePyFloatExp (sgn * (natOfDigits ip : ℚ)) l1

/-- Client metrics dict of `_analyze_client_log`
(testing/tools/test_framework.py). -/
structure ClientMetrics where
  client_id : Nat
  snapshots_received : Nat := 0
  player_disappearances : Nat := 0
  interpolation_warnings : Nat := 0
  buffer_underruns : Nat := 0
  baseline_mismatches : Nat := 0
  avg_delay_ms : ℚ := 0
  errors : List String := []
deriving DecidableEq

/-- The delay extraction of `_analyze_client_log`:
`float(line.split("Delay:")[1].split("ms")[0].strip())`, with the bare
`except` modelled as `none` (an absent index raises `IndexError`, a bad
literal raises `ValueError`; both are swallowed). -/
def extractDelay (line : String) : Option ℚ :=
  match (line.splitOn "Delay:")[1]? with
  | none => none
  | some after => parsePyFloat (pyStrip ((after.splitOn "ms").headD ""))

/-- One iteration of the line loop of `_analyze_client_log`
(testing/tools variant; the tools variant lacks only the buffer-underrun
rule). The second component accumulates the `delays` list. -/
def clientLogStep (p : ClientMetrics × List ℚ) (line : String) : ClientMetrics × List ℚ :=
  let m := p.1
  let delays := p.2
  let m := if strIn "Received snapshot" line then
      { m with snapshots_received := m.snapshots_received + 1 } else m
  let m := if strIn "Player entity" line ∧ strIn "NOT in snapshot" line then
      { m with player_disappearances := m.player_disappearances + 1 } else m
  let m := if strIn "INTERPOLATOR" line ∧ strIn "WARNING" line then
      { m with interpolation_warnings := m.interpolation_warnings + 1 } else m
  let m := if strIn "Buffer underrun" line ∨ strIn "stutter" (pyLower line) then
      { m with buffer_underruns := m.buffer_underruns + 1 } else m
  let m := if strIn "Baseline mismatch" line then
      { m with baseline_mismatches := m.baseline_mismatches + 1 } else m
  let delays := if strIn "Delay:" line ∧ strIn "ms" line then
      match extractDelay line with
      | some d => delays ++ [d]
      | none => delays
    else delays
  let m := if strIn "ERROR" line then { m with errors := m.errors ++ [pyStrip line] } else m
  (m, delays)

/-- Embeds `_analyze_client_log` on the contents of an existing log file. -/
def analyzeClientLog (client_id : Nat) (lines : List String) : ClientMetrics :=
  let p := lines.foldl clientLogStep ({ client_id := client_id }, [])
  if p.2.isEmpty then p.1 else { p.1 with avg_delay_ms := p.2.sum / (p.2.length : ℚ) }

/-- Server metrics dict of `_analyze_server_log`. -/
structure ServerMetrics where
  total_snapshots : Nat := 0
  avg_snapshot_size : ℚ := 0
  total_entities : Nat := 0
  chunk_changes : Nat := 0
  errors : List String := []
deriving DecidableEq

/-- The size extraction of `_analyze_server_log`:
`int(line.split("bytes")[0].split()[-1])` with the bare `except` as `none`. -/
def extractSnapshotSize (line : String) : Option Int :=
  match (pySplitWs ((line.splitOn "bytes").headD "")).getLast? with
  | none => none
  | some tok => parsePyInt tok

/-- One iteration of the line loop of `_analyze_server_log` (identical in
both framework variants). The second component accumulates `snapshot_sizes`. -/
def serverLogStep (p : ServerMetrics × List Int) (line : String) : ServerMetrics × List Int :=
  let sm := p.1
  let sizes := p.2
  let next : ServerMetrics × List Int :=
    if strIn "Snapshot #" line ∧ strIn "to peer" line then
      let sm := { sm with total_snapshots := sm.total_snapshots + 1 }
      if strIn "bytes" line then
        match extractSnapshotSize line with
        | some n => (sm, sizes ++ [n])
        | none => (sm, sizes)
      else (sm, sizes)
    else (sm, sizes)
  let sm := next.1
  let sizes := next.2
  let sm := if strIn "moved from chunk" line then
      { sm with chunk_changes := sm.chunk_changes + 1 } else sm
  let sm := if strIn "ERROR" line ∨ strIn "WARNING" line then
      { sm with errors := sm.errors ++ [pyStrip line] } else sm
  (sm, sizes)

/-- Embeds `_analyze_server_log` on the contents of an existing log file. -/
def analyzeServerLogLines (lines : List String) : ServerMetrics :=
  let p := lines.foldl serverLogStep ({}, [])
  if p.2.isEmpty then p.1
  else { p.1 with avg_snapshot_size := ((p.2.sum : Int) : ℚ) / (p.2.length : ℚ) }

/-- Result of `_analyze_server_log` including its missing-file branch,
which returns the dict `{"error": "Log file not found"}`. -/
inductive ServerLogResult where
  | fileNotFound
  | ok (m : ServerMetrics)
deriving DecidableEq

/-- A file system: maps a path to the lines of the file, or `none` when the
file is missing/unreadable. -/
def FileSystem := String → Option (List String)

/-- Embeds `_analyze_server_log` with its `log_path.exists()` guard. -/
def analyzeServerLog (fs : FileSystem) (path : String) : ServerLogResult :=
  match fs path with
  | none => .fileNotFound
  | some lines => .ok (analyzeServerLogLines lines)

/-- The `results` portion of the framework report built by `_analyze_logs`:
the server log is analyzed unconditionally (missing gives the error entry);
each client log is analyzed only `if client_log.exists()`, a missing client
log being skipped with no entry at all. -/
structure FrameworkResults where
  server : ServerLogResult
  clients : List ClientMetrics
deriving DecidableEq

/-- Embeds `_analyze_logs`: server entry plus existing-client entries, in order. -/
def analyzeLogsResults (fs : FileSystem) (log_dir : String) (num_clients : Nat) :
    FrameworkResults :=
  { server := analyzeServerLog fs (log_dir ++ "/server.log")
    clients := (List.range num_clients).filterMap fun i =>
      match fs (log_dir ++ "/client_" ++ toString i ++ ".log") with
      | none => none
      | some lines => some (analyzeClientLog i lines) }

/-- Outcome of the per-client high-baseline-mismatch block in
`_generate_agent_summary` / `_generate_claude_summary`. -/
inductive SummaryLineOutcome where
  | divByZero
  | noLine
  | line (s : String)
deriving DecidableEq

/-- The high-baseline-mismatch block of `_generate_agent_summary`
(testing/tools/test_framework.py, lines 494-502; identical in
`_generate_claude_summary` of tools/test_framework.py, lines 422-430):
the block reads baseline_mismatches with dict-get default 0 and
snapshots_received with dict-get default 1 (both keys are always
present in a dict produced by `_analyze_client_log`, so the defaults are
inert there), then `if mismatches > received * 0.1:` writes a line whose
f-string computes `mismatches*100//received`. Python raises
`ZeroDivisionError` on that floor division when `received = 0`, modelled
by `divByZero`; the float comparison with `0.1` is modelled exactly. -/
def highMismatchLine (c : ClientMetrics) : SummaryLineOutcome :=
  let mismatches := c.baseline_mismatches
  let received := c.snapshots_received
  if (received : ℚ) * (1/10) < (mismatches : ℚ) then
    if received = 0 then .divByZero
    else .line ("⚠️ **High Baseline Mismatches**: Client " ++ toString c.client_id ++
      " had " ++ toString mismatches ++ " mismatches out of " ++ toString received ++
      " snapshots (" ++ toString (mismatches * 100 / received) ++ "%)\n\n")
  else .noLine

/-! ## The analyzer entry point over a directory of log files
(analyze_test_logs.py `main`) -/

/-- Embeds `LogAnalyzer.parse` including the unguarded file open call:
a missing/unreadable file raises (there is no `try`/`except` in `parse`
and no existence check), modelled as `Except.error`. -/
def parseLogFile (fs : FileSystem) (path : String) : Except String AnalysisResult :=
  match fs path with
  | none => .error "FileNotFoundError"
  | some lines => .ok (analyzeFile path lines)

/-- The `for log_file in log_files` loop of analyze_test_logs.py `main`:
each file is parsed in turn and the first raised exception propagates,
aborting the loop (and therefore the whole report). -/
def analyzeAllFiles (fs : FileSystem) (paths : List String) :
    Except String (List AnalysisResult) :=
  match paths with
  | [] => .ok []
  | p :: rest =>
    match parseLogFile fs p with
    | .error e => .error e
    | .ok r =>
      match analyzeAllFiles fs rest with
      | .error e => .error e
      | .ok rs => .ok (r :: rs)

/-! ## JSON report (analyze_test_logs.py `ReportGenerator`) -/

/-- JSON values appearing in the analyzer report (objects are modelled as
insertion-ordered key-value lists elsewhere; `json.dump`/`json.load` are
inverse on this structure, so it stands for the parsed-back output too). -/
inductive JVal where
  | num (q : ℚ)
  | str (s : String)
  | strList (l : List String)
  | bool (b : Bool)
deriving DecidableEq

/-- The per-file dict literal appended to `report_data["files"]` by
`generate_json_report`, with its exact keys in insertion order. -/
def jsonFileEntry (r : AnalysisResult) : List (String × JVal) :=
  [("filename", .str r.filename),
   ("total_lines", .num r.total_lines),
   ("entries", .num r.entries.length),
   ("errors", .num r.errors),
   ("warnings", .num r.warnings),
   ("snapshots_sent", .num r.snapshots_sent),
   ("snapshots_received", .num r.snapshots_received),
   ("packet_loss_events", .num r.packet_loss_events),
   ("baseline_mismatches", .num r.baseline_mismatches),
   ("player_disappearances", .num r.player_disappearances),
   ("interpolation_warnings", .num r.interpolation_warnings),
   ("chunk_changes", .num r.chunk_changes),
   ("critical_issues", .strList r.critical_issues),
   ("warnings_list", .strList r.warnings_list),
   ("duration", .num (r.end_time - r.start_time))]

/-- Accumulator of `_calculate_summary` (its dict has these fixed keys). -/
structure SummaryAcc where
  total_errors : Nat := 0
  total_warnings : Nat := 0
  total_snapshots_sent : Nat := 0
  total_snapshots_received : Nat := 0
  total_player_disappearances : Nat := 0
  total_interpolation_warnings : Nat := 0
  has_critical_issues : Bool := false
  has_warnings : Bool := false
deriving DecidableEq

/-- One iteration of the `for result in self.results` loop of
`_calculate_summary`. -/
def summaryStep (s : SummaryAcc) (r : AnalysisResult) : SummaryAcc :=
  { total_errors := s.total_errors + r.errors
    total_warnings := s.total_warnings + r.warnings
    total_snapshots_sent := s.total_snapshots_sent + r.snapshots_sent
    total_snapshots_received := s.total_snapshots_received + r.snapshots_received
    total_player_disappearances := s.total_player_disappearances + r.player_disappearances
    total_interpolation_warnings := s.total_interpolation_warnings + r.interpolation_warnings
    has_critical_issues := s.has_critical_issues || !r.critical_issues.isEmpty
    has_warnings := s.has_warnings || !r.warnings_list.isEmpty }

/-- Embeds `_calculate_summary` as the emitted JSON object (keys in dict insertion
order). -/
def calculateSummary (results : List AnalysisResult) : List (String × JVal) :=
  let s := results.foldl summaryStep {}
  [("total_errors", .num s.total_errors),
   ("total_warnings", .num s.total_warnings),
   ("total_snapshots_sent", .num s.total_snapshots_sent),
   ("total_snapshots_received", .num s.total_snapshots_received),
   ("total_player_disappearances", .num s.total_player_disappearances),
   ("total_interpolation_warnings", .num s.total_interpolation_warnings),
   ("has_critical_issues", .bool s.has_critical_issues),
   ("has_warnings", .bool s.has_warnings)]

/-- The `report_data` structure written by `generate_json_report`:
`{"files": [...], "summary": _calculate_summary()}`. -/
structure JsonReport where
  files : List (List (String × JVal))
  summary : List (String × JVal)
deriving DecidableEq

/-- Embeds the report content of `generate_json_report`. -/
def generateJsonReport (results : List AnalysisResult) : JsonReport :=
  { files := results.map jsonFileEntry
    summary := calculateSummary results }

/-- Sum of the four per-level counters of an `AnalysisResult`. -/
def levelSum (r : AnalysisResult) : Nat := r.errors + r.warnings + r.info + r.debug

/-- A structured `CLIENT_ERROR`/`ERROR` line with message
"Player entity missing from snapshot" (the disappearance scenario of the spec). -/
def c6Line : String := "[1.0] [ERROR] [CLIENT_ERROR] Player entity missing from snapshot"

/-- A structured `INTERPOLATOR`/`WARN` line (the interpolation
scenario). -/
def interpLine : String := "[1.0] [WARN] [INTERPOLATOR] buffer low"

/-- A structured `CLIENT_SNAPSHOT` line (increments snapshots_received). -/
def snapLine : String := "[1.0] [INFO] [CLIENT_SNAPSHOT] Received snapshot"

/-- A structured `CLIENT_DELTA` line whose message contains "mismatch"
(increments baseline_mismatches). -/
def deltaLine : String := "[1.0] [WARN] [CLIENT_DELTA] Baseline mismatch detected"

/-- The serialization of grammar fields back into a line
`[d1.d2] [level] [category] message` with optional ` | meta` suffix,
used to state the parser round-trip property. -/
def mkLine (d1 d2 : List Char) (lvl cat msg : String) (meta : Option String) : String :=
  ⟨'[' :: d1 ++ '.' :: d2 ++ ']' :: ' ' :: '[' :: lvl.data ++ ']' :: ' ' :: '[' :: cat.data ++
    ']' :: ' ' :: msg.data ++
    (match meta with
     | none => []
     | some m => ' ' :: '|' :: ' ' :: m.data)⟩

/-! ## Projection lemmas: the accumulator statements touch only their own
counter, the issue detector touches only the two issue lists, and the
timing step touches only the two timestamps. -/

@[simp] theorem bumpLevels_warnings_list (e : LogEntry) (r : AnalysisResult) :
    (bumpLevels e r).warnings_list = r.warnings_list := by
  unfold bumpLevels; (repeat' split) <;> rfl

@[simp] theorem bumpLevels_critical_issues (e : LogEntry) (r : AnalysisResult) :
    (bumpLevels e r).critical_issues = r.critical_issues := by
  unfold bumpLevels; (repeat' split) <;> rfl

@[simp] theorem bumpLevels_entries (e : LogEntry) (r : AnalysisResult) :
    (bumpLevels e r).entries = r.entries := by
  unfold bumpLevels; (repeat' split) <;> rfl

@[simp] theorem bumpLevels_total_lines (e : LogEntry) (r : AnalysisResult) :
    (bumpLevels e r).total_lines = r.total_lines := by
  unfold bumpLevels; (repeat' split) <;> rfl

@[simp] theorem bumpLevels_interpolation_warnings (e : LogEntry) (r : AnalysisResult) :
    (bumpLevels e r).interpolation_warnings = r.interpolation_warnings := by
  unfold bumpLevels; (repeat' split) <;> rfl

@[simp] theorem bumpSent_warnings_list (e : LogEntry) (r : AnalysisResult) :
    (bumpSent e r).warnings_list = r.warnings_list := by
  unfold bumpSent; split <;> rfl

@[simp] theorem bumpSent_critical_issues (e : LogEntry) (r : AnalysisResult) :
    (bumpSent e r).critical_issues = r.critical_issues := by
  unfold bumpSent; split <;> rfl

@[simp] theorem bumpSent_entries (e : LogEntry) (r : AnalysisResult) :
    (bumpSent e r).entries = r.entries := by
  unfold bumpSent; split <;> rfl

@[simp] theorem bumpSent_total_lines (e : LogEntry) (r : AnalysisResult) :
    (bumpSent e r).total_lines = r.total_lines := by
  unfold bumpSent; split <;> rfl

@[simp] theorem bumpSent_interpolation_warnings (e : LogEntry) (r : AnalysisResult) :
    (bumpSent e r).interpolation_warnings = r.interpolation_warnings := by
  unfold bumpSent; split <;> rfl

@[simp] theorem bumpSent_levelSum (e : LogEntry) (r : AnalysisResult) :
    levelSum (bumpSent e r) = levelSum r := by
  unfold bumpSent levelSum; split <;> rfl

@[simp] theorem bumpReceived_warnings_list (e : LogEntry) (r : AnalysisResult) :
    (bumpReceived e r).warnings_list = r.warnings_list := by
  unfold bumpReceived; split <;> rfl

@[simp] theorem bumpReceived_critical_issues (e : LogEntry) (r : AnalysisResult) :
    (bumpReceived e r).critical_issues = r.critical_issues := by
  unfold bumpReceived; split <;> rfl

@[simp] theorem bumpReceived_entries (e : LogEntry) (r : AnalysisResult) :
    (bumpReceived e r).entries = r.entries := by
  unfold bumpReceived; split <;> rfl

@[simp] theorem bumpReceived_total_lines (e : LogEntry) (r : AnalysisResult) :
    (bumpReceived e r).total_lines = r.total_lines := by
  unfold bumpReceived; split <;> rfl

@[simp] theorem bumpReceived_interpolation_warnings (e : LogEntry) (r : AnalysisResult) :
    (bumpReceived e r).interpolation_warnings = r.interpolation_warnings := by
  unfold bumpReceived; split <;> rfl

@[simp] theorem bumpReceived_levelSum (e : LogEntry) (r : AnalysisResult) :
    levelSum (bumpReceived e r) = levelSum r := by
  unfold bumpReceived levelSum; split <;> rfl

@[simp] theorem bumpPacketLoss_warnings_list (e : LogEntry) (r : AnalysisResult) :
    (bumpPacketLoss e r).warnings_list = r.warnings_list := by
  unfold bumpPacketLoss; split <;> rfl

@[simp] theorem bumpPacketLoss_critical_issues (e : LogEntry) (r : AnalysisResult) :
    (bumpPacketLoss e r).critical_issues = r.critical_issues := by
  unfold bumpPacketLoss; split <;> rfl

@[simp] theorem bumpPacketLoss_entries (e : LogEntry) (r : AnalysisResult) :
    (bumpPacketLoss e r).entries = r.entries := by
  unfold bumpPacketLoss; split <;> rfl

@[simp] theorem bumpPacketLoss_total_lines (e : LogEntry) (r : AnalysisResult) :
    (bumpPacketLoss e r).total_lines = r.total_lines := by
  unfold bumpPacketLoss; split <;> rfl

@[simp] theorem bumpPacketLoss_interpolation_warnings (e : LogEntry) (r : AnalysisResult) :
    (bumpPacketLoss e r).interpolation_warnings = r.interpolation_warnings := by
  unfold bumpPacketLoss; split <;> rfl

@[simp] theorem bumpPacketLoss_levelSum (e : LogEntry) (r : AnalysisResult) :
    levelSum (bumpPacketLoss e r) = levelSum r := by
  unfold bumpPacketLoss levelSum; split <;> rfl

@[simp] theorem bumpMismatch_warnings_list (e : LogEntry) (r : AnalysisResult) :
    (bumpMismatch e r).warnings_list = r.warnings_list := by
  unfold bumpMismatch; split <;> rfl

@[simp] theorem bumpMismatch_critical_issues (e : LogEntry) (r : AnalysisResult) :
    (bumpMismatch e r).critical_issues = r.critical_issues := by
  unfold bumpMismatch; split <;> rfl

@[simp] theorem bumpMismatch_entries (e : LogEntry) (r : AnalysisResult) :
    (bumpMismatch e r).entries = r.entries := by
  unfold bumpMismatch; split <;> rfl

@[simp] theorem bumpMismatch_total_lines (e : LogEntry) (r : AnalysisResult) :
    (bumpMismatch e r).total_lines = r.total_lines := by
  unfold bumpMismatch; split <;> rfl

@[simp] theorem bumpMismatch_interpolation_warnings (e : LogEntry) (r : AnalysisResult) :
    (bumpMismatch e r).interpolation_warnings = r.interpolation_warnings := by
  unfold bumpMismatch; split <;> rfl

@[simp] theorem bumpMismatch_levelSum (e : LogEntry) (r : AnalysisResult) :
    levelSum (bumpMismatch e r) = levelSum r := by
  unfold bumpMismatch levelSum; split <;> rfl

@[simp] theorem bumpDisappearance_warnings_list (e : LogEntry) (r : AnalysisResult) :
    (bumpDisappearance e r).warnings_list = r.warnings_list := by
  unfold bumpDisappearance; split <;> rfl

@[simp] theorem bumpDisappearance_critical_issues (e : LogEntry) (r : AnalysisResult) :
    (bumpDisappearance e r).critical_issues = r.critical_issues := by
  unfold bumpDisappearance; split <;> rfl

@[simp] theorem bumpDisappearance_entries (e : LogEntry) (r : AnalysisResult) :
    (bumpDisappearance e r).entries = r.entries := by
  unfold bumpDisappearance; split <;> rfl

@[simp] theorem bumpDisappearance_total_lines (e : LogEntry) (r : AnalysisResult) :
    (bumpDisappearance e r).total_lines = r.total_lines := by
  unfold bumpDisappearance; split <;> rfl

@[simp] theorem bumpDisappearance_interpolation_warnings (e : LogEntry) (r : AnalysisResult) :
    (bumpDisappearance e r).interpolation_warnings = r.interpolation_warnings := by
  unfold bumpDisappearance; split <;> rfl

@[simp] theorem bumpDisappearance_levelSum (e : LogEntry) (r : AnalysisResult) :
    levelSum (bumpDisappearance e r) = levelSum r := by
  unfold bumpDisappearance levelSum; split <;> rfl

@[simp] theorem bumpInterp_warnings_list (e : LogEntry) (r : AnalysisResult) :
    (bumpInterp e r).warnings_list = r.warnings_list := by
  unfold bumpInterp; split <;> rfl

@[simp] theorem bumpInterp_critical_issues (e : LogEntry) (r : AnalysisResult) :
    (bumpInterp e r).critical_issues = r.critical_issues := by
  unfold bumpInterp; split <;> rfl

@[simp] theorem bumpInterp_entries (e : LogEntry) (r : AnalysisResult) :
    (bumpInterp e r).entries = r.entries := by
  unfold bumpInterp; split <;> rfl

@[simp] theorem bumpInterp_total_lines (e : LogEntry) (r : AnalysisResult) :
    (bumpInterp e r).total_lines = r.total_lines := by
  unfold bumpInterp; split <;> rfl

@[simp] theorem bumpInterp_levelSum (e : LogEntry) (r : AnalysisResult) :
    levelSum (bumpInterp e r) = levelSum r := by
  unfold bumpInterp levelSum; split <;> rfl

@[simp] theorem bumpChunk_warnings_list (e : LogEntry) (r : AnalysisResult) :
    (bumpChunk e r).warnings_list = r.warnings_list := by
  unfold bumpChunk; split <;> rfl

@[simp] theorem bumpChunk_critical_issues (e : LogEntry) (r : AnalysisResult) :
    (bumpChunk e r).critical_issues = r.critical_issues := by
  unfold bumpChunk; split <;> rfl

@[simp] theorem bumpChunk_entries (e : LogEntry) (r : AnalysisResult) :
    (bumpChunk e r).entries = r.entries := by
  unfold bumpChunk; split <;> rfl

@[simp] theorem bumpChunk_total_lines (e : LogEntry) (r : AnalysisResult) :
    (bumpChunk e r).total_lines = r.total_lines := by
  unfold bumpChunk; split <;> rfl

@[simp] theorem bumpChunk_interpolation_warnings (e : LogEntry) (r : AnalysisResult) :
    (bumpChunk e r).interpolation_warnings = r.interpolation_warnings := by
  unfold bumpChunk; split <;> rfl

@[simp] theorem bumpChunk_levelSum (e : LogEntry) (r : AnalysisResult) :
    levelSum (bumpChunk e r) = levelSum r := by
  unfold bumpChunk levelSum; split <;> rfl

@[simp] theorem bumpLevels_levelSum (e : LogEntry) (r : AnalysisResult) :
    levelSum (bumpLevels e r) ≤ levelSum r + 1 := by
  unfold bumpLevels levelSum; (repeat' split) <;> simp_arith

@[simp] theorem bumpInterp_interpolation_warnings (e : LogEntry) (r : AnalysisResult) :
    (bumpInterp e r).interpolation_warnings =
      r.interpolation_warnings +
        (if e.category = "INTERPOLATOR" ∧ e.level = "WARN" then 1 else 0) := by
  unfold bumpInterp; split <;> simp_all

@[simp] theorem updateMetrics_warnings_list (e : LogEntry) (r : AnalysisResult) :
    (updateMetrics e r).warnings_list = r.warnings_list := by simp [updateMetrics]

@[simp] theorem updateMetrics_critical_issues (e : LogEntry) (r : AnalysisResult) :
    (updateMetrics e r).critical_issues = r.critical_issues := by simp [updateMetrics]

@[simp] theorem updateMetrics_entries (e : LogEntry) (r : AnalysisResult) :
    (updateMetrics e r).entries = r.entries := by simp [updateMetrics]

@[simp] theorem updateMetrics_total_lines (e : LogEntry) (r : AnalysisResult) :
    (updateMetrics e r).total_lines = r.total_lines := by simp [updateMetrics]

theorem updateMetrics_interpolation_warnings (e : LogEntry) (r : AnalysisResult) :
    (updateMetrics e r).interpolation_warnings =
      r.interpolation_warnings +
        (if e.category = "INTERPOLATOR" ∧ e.level = "WARN" then 1 else 0) := by
  simp [updateMetrics]

theorem updateMetrics_levelSum (e : LogEntry) (r : AnalysisResult) :
    levelSum (updateMetrics e r) ≤ levelSum r + 1 := by
  simp [updateMetrics]

@[simp] theorem issueDisappearance_snapshots_received (r : AnalysisResult) :
    (issueDisappearance r).snapshots_received = r.snapshots_received := by
  unfold issueDisappearance; split <;> rfl

@[simp] theorem issueDisappearance_snapshots_sent (r : AnalysisResult) :
    (issueDisappearance r).snapshots_sent = r.snapshots_sent := by
  unfold issueDisappearance; split <;> rfl

@[simp] theorem issueDisappearance_baseline_mismatches (r : AnalysisResult) :
    (issueDisappearance r).baseline_mismatches = r.baseline_mismatches := by
  unfold issueDisappearance; split <;> rfl

@[simp] theorem issueDisappearance_interpolation_warnings (r : AnalysisResult) :
    (issueDisappearance r).interpolation_warnings = r.interpolation_warnings := by
  unfold issueDisappearance; split <;> rfl

@[simp] theorem issueDisappearance_player_disappearances (r : AnalysisResult) :
    (issueDisappearance r).player_disappearances = r.player_disappearances := by
  unfold issueDisappearance; split <;> rfl

@[simp] theorem issueDisappearance_entries (r : AnalysisResult) :
    (issueDisappearance r).entries = r.entries := by
  unfold issueDisappearance; split <;> rfl

@[simp] theorem issueDisappearance_total_lines (r : AnalysisResult) :
    (issueDisappearance r).total_lines = r.total_lines := by
  unfold issueDisappearance; split <;> rfl

@[simp] theorem issueDisappearance_errors (r : AnalysisResult) :
    (issueDisappearance r).errors = r.errors := by
  unfold issueDisappearance; split <;> rfl

@[simp] theorem issueDisappearance_warnings (r : AnalysisResult) :
    (issueDisappearance r).warnings = r.warnings := by
  unfold issueDisappearance; split <;> rfl

@[simp] theorem issueDisappearance_info (r : AnalysisResult) :
    (issueDisappearance r).info = r.info := by
  unfold issueDisappearance; split <;> rfl

@[simp] theorem issueDisappearance_debug (r : AnalysisResult) :
    (issueDisappearance r).debug = r.debug := by
  unfold issueDisappearance; split <;> rfl

@[simp] theorem issueInterp_snapshots_received (r : AnalysisResult) :
    (issueInterp r).snapshots_received = r.snapshots_received := by
  unfold issueInterp; split <;> rfl

@[simp] theorem issueInterp_snapshots_sent (r : AnalysisResult) :
    (issueInterp r).snapshots_sent = r.snapshots_sent := by
  unfold issueInterp; split <;> rfl

@[simp] theorem issueInterp_baseline_mismatches (r : AnalysisResult) :
    (issueInterp r).baseline_mismatches = r.baseline_mismatches := by
  unfold issueInterp; split <;> rfl

@[simp] theorem issueInterp_interpolation_warnings (r : AnalysisResult) :
    (issueInterp r).interpolation_warnings = r.interpolation_warnings := by
  unfold issueInterp; split <;> rfl

@[simp] theorem issueInterp_player_disappearances (r : AnalysisResult) :
    (issueInterp r).player_disappearances = r.player_disappearances := by
  unfold issueInterp; split <;> rfl

@[simp] theorem issueInterp_entries (r : AnalysisResult) :
    (issueInterp r).entries = r.entries := by
  unfold issueInterp; split <;> rfl

@[simp] theorem issueInterp_total_lines (r : AnalysisResult) :
    (issueInterp r).total_lines = r.total_lines := by
  unfold issueInterp; split <;> rfl

@[simp] theorem issueInterp_errors (r : AnalysisResult) :
    (issueInterp r).errors = r.errors := by
  unfold issueInterp; split <;> rfl

@[simp] theorem issueInterp_warnings (r : AnalysisResult) :
    (issueInterp r).warnings = r.warnings := by
  unfold issueInterp; split <;> rfl

@[simp] theorem issueInterp_info (r : AnalysisResult) :
    (issueInterp r).info = r.info := by
  unfold issueInterp; split <;> rfl

@[simp] theorem issueInterp_debug (r : AnalysisResult) :
    (issueInterp r).debug = r.debug := by
  unfold issueInterp; split <;> rfl

@[simp] theorem issueMismatch_snapshots_received (r : AnalysisResult) :
    (issueMismatch r).snapshots_received = r.snapshots_received := by
  unfold issueMismatch; dsimp only; (repeat' split) <;> rfl

@[simp] theorem issueMismatch_snapshots_sent (r : AnalysisResult) :
    (issueMismatch r).snapshots_sent = r.snapshots_sent := by
  unfold issueMismatch; dsimp only; (repeat' split) <;> rfl

@[simp] theorem issueMismatch_baseline_mismatches (r : AnalysisResult) :
    (issueMismatch r).baseline_mismatches = r.baseline_mismatches := by
  unfold issueMismatch; dsimp only; (repeat' split) <;> rfl

@[simp] theorem issueMismatch_interpolation_warnings (r : AnalysisResult) :
    (issueMismatch r).interpolation_warnings = r.interpolation_warnings := by
  unfold issueMismatch; dsimp only; (repeat' split) <;> rfl

@[simp] theorem issueMismatch_player_disappearances (r : AnalysisResult) :
    (issueMismatch r).player_disappearances = r.player_disappearances := by
  unfold issueMismatch; dsimp only; (repeat' split) <;> rfl

@[simp] theorem issueMismatch_entries (r : AnalysisResult) :
    (issueMismatch r).entries = r.entries := by
  unfold issueMismatch; dsimp only; (repeat' split) <;> rfl

@[simp] theorem issueMismatch_total_lines (r : AnalysisResult) :
    (issueMismatch r).total_lines = r.total_lines := by
  unfold issueMismatch; dsimp only; (repeat' split) <;> rfl

@[simp] theorem issueMismatch_errors (r : AnalysisResult) :
    (issueMismatch r).errors = r.errors := by
  unfold issueMismatch; dsimp only; (repeat' split) <;> rfl

@[simp] theorem issueMismatch_warnings (r : AnalysisResult) :
    (issueMismatch r).warnings = r.warnings := by
  unfold issueMismatch; dsimp only; (repeat' split) <;> rfl

@[simp] theorem issueMismatch_info (r : AnalysisResult) :
    (issueMismatch r).info = r.info := by
  unfold issueMismatch; dsimp only; (repeat' split) <;> rfl

@[simp] theorem issueMismatch_debug (r : AnalysisResult) :
    (issueMismatch r).debug = r.debug := by
  unfold issueMismatch; dsimp only; (repeat' split) <;> rfl

@[simp] theorem issueServer_snapshots_received (path : String) (r : AnalysisResult) :
    (issueServer path r).snapshots_received = r.snapshots_received := by
  unfold issueServer; split <;> rfl

@[simp] theorem issueServer_snapshots_sent (path : String) (r : AnalysisResult) :
    (issueServer path r).snapshots_sent = r.snapshots_sent := by
  unfold issueServer; split <;> rfl

@[simp] theorem issueServer_baseline_mismatches (path : String) (r : AnalysisResult) :
    (issueServer path r).baseline_mismatches = r.baseline_mismatches := by
  unfold issueServer; split <;> rfl

@[simp] theorem issueServer_interpolation_warnings (path : String) (r : AnalysisResult) :
    (issueServer path r).interpolation_warnings = r.interpolation_warnings := by
  unfold issueServer; split <;> rfl

@[simp] theorem issueServer_player_disappearances (path : String) (r : AnalysisResult) :
    (issueServer path r).player_disappearances = r.player_disappearances := by
  unfold issueServer; split <;> rfl

@[simp] theorem issueServer_entries (path : String) (r : AnalysisResult) :
    (issueServer path r).entries = r.entries := by
  unfold issueServer; split <;> rfl

@[simp] theorem issueServer_total_lines (path : String) (r : AnalysisResult) :
    (issueServer path r).total_lines = r.total_lines := by
  unfold issueServer; split <;> rfl

@[simp] theorem issueServer_errors (path : String) (r : AnalysisResult) :
    (issueServer path r).errors = r.errors := by
  unfold issueServer; split <;> rfl

@[simp] theorem issueServer_warnings (path : String) (r : AnalysisResult) :
    (issueServer path r).warnings = r.warnings := by
  unfold issueServer; split <;> rfl

@[simp] theorem issueServer_info (path : String) (r : AnalysisResult) :
    (issueServer path r).info = r.info := by
  unfold issueServer; split <;> rfl

@[simp] theorem issueServer_debug (path : String) (r : AnalysisResult) :
    (issueServer path r).debug = r.debug := by
  unfold issueServer; split <;> rfl

@[simp] theorem issueClient_snapshots_received (path : String) (r : AnalysisResult) :
    (issueClient path r).snapshots_received = r.snapshots_received := by
  unfold issueClient; split <;> rfl

@[simp] theorem issueClient_snapshots_sent (path : String) (r : AnalysisResult) :
    (issueClient path r).snapshots_sent = r.snapshots_sent := by
  unfold issueClient; split <;> rfl

@[simp] theorem issueClient_baseline_mismatches (path : String) (r : AnalysisResult) :
    (issueClient path r).baseline_mismatches = r.baseline_mismatches := by
  unfold issueClient; split <;> rfl

@[simp] theorem issueClient_interpolation_warnings (path : String) (r : AnalysisResult) :
    (issueClient path r).interpolation_warnings = r.interpolation_warnings := by
  unfold issueClient; split <;> rfl

@[simp] theorem issueClient_player_disappearances (path : String) (r : AnalysisResult) :
    (issueClient path r).player_disappearances = r.player_disappearances := by
  unfold issueClient; split <;> rfl

@[simp] theorem issueClient_entries (path : String) (r : AnalysisResult) :
    (issueClient path r).entries = r.entries := by
  unfold issueClient; split <;> rfl

@[simp] theorem issueClient_total_lines (path : String) (r : AnalysisResult) :
    (issueClient path r).total_lines = r.total_lines := by
  unfold issueClient; split <;> rfl

@[simp] theorem issueClient_errors (path : String) (r : AnalysisResult) :
    (issueClient path r).errors = r.errors := by
  unfold issueClient; split <;> rfl

@[simp] theorem issueClient_warnings (path : String) (r : AnalysisResult) :
    (issueClient path r).warnings = r.warnings := by
  unfold issueClient; split <;> rfl

@[simp] theorem issueClient_info (path : String) (r : AnalysisResult) :
    (issueClient path r).info = r.info := by
  unfold issueClient; split <;> rfl

@[simp] theorem issueClient_debug (path : String) (r : AnalysisResult) :
    (issueClient path r).debug = r.debug := by
  unfold issueClient; split <;> rfl

@[simp] theorem issueDisappearance_warnings_list (r : AnalysisResult) :
    (issueDisappearance r).warnings_list = r.warnings_list := by
  unfold issueDisappearance; split <;> rfl

@[simp] theorem issueInterp_critical_issues (r : AnalysisResult) :
    (issueInterp r).critical_issues = r.critical_issues := by
  unfold issueInterp; split <;> rfl

@[simp] theorem issueMismatch_critical_issues (r : AnalysisResult) :
    (issueMismatch r).critical_issues = r.critical_issues := by
  unfold issueMismatch; dsimp only; (repeat' split) <;> rfl

@[simp] theorem issueServer_warnings_list (path : String) (r : AnalysisResult) :
    (issueServer path r).warnings_list = r.warnings_list := by
  unfold issueServer; split <;> rfl

@[simp] theorem issueClient_warnings_list (path : String) (r : AnalysisResult) :
    (issueClient path r).warnings_list = r.warnings_list := by
  unfold issueClient; split <;> rfl

@[simp] theorem issueDisappearance_critical_issues (r : AnalysisResult) :
    (issueDisappearance r).critical_issues =
      r.critical_issues ++
        (if 0 < r.player_disappearances then [disappearanceMsg r.player_disappearances]
         else []) := by
  unfold issueDisappearance; split <;> simp_all

@[simp] theorem issueInterp_warnings_list (r : AnalysisResult) :
    (issueInterp r).warnings_list =
      r.warnings_list ++
        (if 10 < r.interpolation_warnings then [interpMsg r.interpolation_warnings]
         else []) := by
  unfold issueInterp; split <;> simp_all

@[simp] theorem issueMismatch_warnings_list (r : AnalysisResult) :
    (issueMismatch r).warnings_list =
      r.warnings_list ++
        (if 0 < r.snapshots_received ∧
            (1 : ℚ)/10 < (r.baseline_mismatches : ℚ) / (r.snapshots_received : ℚ) then
          [mismatchMsg ((r.baseline_mismatches : ℚ) / (r.snapshots_received : ℚ))]
         else []) := by
  unfold issueMismatch
  by_cases h1 : 0 < r.snapshots_received
  · rw [if_pos h1]
    dsimp only
    by_cases h2 : (1 : ℚ)/10 < (r.baseline_mismatches : ℚ) / (r.snapshots_received : ℚ)
    · rw [if_pos h2, if_pos ⟨h1, h2⟩]
    · rw [if_neg h2, if_neg (fun hc => h2 hc.2), List.append_nil]
  · rw [if_neg h1, if_neg (fun hc => h1 hc.1), List.append_nil]

@[simp] theorem issueServer_critical_issues (path : String) (r : AnalysisResult) :
    (issueServer path r).critical_issues =
      r.critical_issues ++
        (if r.snapshots_sent = 0 ∧ strIn "server" (pyLower path) = true then [serverZeroMsg]
         else []) := by
  unfold issueServer; split <;> simp_all

@[simp] theorem issueClient_critical_issues (path : String) (r : AnalysisResult) :
    (issueClient path r).critical_issues =
      r.critical_issues ++
        (if r.snapshots_received = 0 ∧ strIn "client" (pyLower path) = true then [clientZeroMsg]
         else []) := by
  unfold issueClient; split <;> simp_all

@[simp] theorem setTiming_snapshots_received (r : AnalysisResult) :
    (setTiming r).snapshots_received = r.snapshots_received := by
  unfold setTiming; split <;> rfl

@[simp] theorem setTiming_snapshots_sent (r : AnalysisResult) :
    (setTiming r).snapshots_sent = r.snapshots_sent := by
  unfold setTiming; split <;> rfl

@[simp] theorem setTiming_baseline_mismatches (r : AnalysisResult) :
    (setTiming r).baseline_mismatches = r.baseline_mismatches := by
  unfold setTiming; split <;> rfl

@[simp] theorem setTiming_interpolation_warnings (r : AnalysisResult) :
    (setTiming r).interpolation_warnings = r.interpolation_warnings := by
  unfold setTiming; split <;> rfl

@[simp] theorem setTiming_player_disappearances (r : AnalysisResult) :
    (setTiming r).player_disappearances = r.player_disappearances := by
  unfold setTiming; split <;> rfl

@[simp] theorem setTiming_entries (r : AnalysisResult) :
    (setTiming r).entries = r.entries := by
  unfold setTiming; split <;> rfl

@[simp] theorem setTiming_total_lines (r : AnalysisResult) :
    (setTiming r).total_lines = r.total_lines := by
  unfold setTiming; split <;> rfl

@[simp] theorem setTiming_errors (r : AnalysisResult) :
    (setTiming r).errors = r.errors := by
  unfold setTiming; split <;> rfl

@[simp] theorem setTiming_warnings (r : AnalysisResult) :
    (setTiming r).warnings = r.warnings := by
  unfold setTiming; split <;> rfl

@[simp] theorem setTiming_info (r : AnalysisResult) :
    (setTiming r).info = r.info := by
  unfold setTiming; split <;> rfl

@[simp] theorem setTiming_debug (r : AnalysisResult) :
    (setTiming r).debug = r.debug := by
  unfold setTiming; split <;> rfl

@[simp] theorem setTiming_critical_issues (r : AnalysisResult) :
    (setTiming r).critical_issues = r.critical_issues := by
  unfold setTiming; split <;> rfl

@[simp] theorem setTiming_warnings_list (r : AnalysisResult) :
    (setTiming r).warnings_list = r.warnings_list := by
  unfold setTiming; split <;> rfl

theorem detectIssues_warnings_list (path : String) (r : AnalysisResult) :
    (detectIssues path r).warnings_list =
      r.warnings_list ++
        ((if 10 < r.interpolation_warnings then [interpMsg r.interpolation_warnings] else []) ++
         (if 0 < r.snapshots_received ∧
             (1 : ℚ)/10 < (r.baseline_mismatches : ℚ) / (r.snapshots_received : ℚ) then
           [mismatchMsg ((r.baseline_mismatches : ℚ) / (r.snapshots_received : ℚ))]
          else [])) := by
  simp [detectIssues]

theorem detectIssues_critical_issues (path : String) (r : AnalysisResult) :
    (detectIssues path r).critical_issues =
      r.critical_issues ++
        ((if 0 < r.player_disappearances then [disappearanceMsg r.player_disappearances] else []) ++
         ((if r.snapshots_sent = 0 ∧ strIn "server" (pyLower path) = true then [serverZeroMsg] else []) ++
          (if r.snapshots_received = 0 ∧ strIn "client" (pyLower path) = true then [clientZeroMsg] else []))) := by
  simp [detectIssues]

theorem detectIssues_snapshots_received (path : String) (r : AnalysisResult) :
    (detectIssues path r).snapshots_received = r.snapshots_received := by simp [detectIssues]

theorem detectIssues_snapshots_sent (path : String) (r : AnalysisResult) :
    (detectIssues path r).snapshots_sent = r.snapshots_sent := by simp [detectIssues]

theorem detectIssues_baseline_mismatches (path : String) (r : AnalysisResult) :
    (detectIssues path r).baseline_mismatches = r.baseline_mismatches := by simp [detectIssues]

theorem detectIssues_interpolation_warnings (path : String) (r : AnalysisResult) :
    (detectIssues path r).interpolation_warnings = r.interpolation_warnings := by simp [detectIssues]

theorem detectIssues_player_disappearances (path : String) (r : AnalysisResult) :
    (detectIssues path r).player_disappearances = r.player_disappearances := by simp [detectIssues]

theorem detectIssues_entries (path : String) (r : AnalysisResult) :
    (detectIssues path r).entries = r.entries := by simp [detectIssues]

theorem detectIssues_total_lines (path : String) (r : AnalysisResult) :
    (detectIssues path r).total_lines = r.total_lines := by simp [detectIssues]

theorem detectIssues_levelSum (path : String) (r : AnalysisResult) :
    levelSum (detectIssues path r) = levelSum r := by simp [detectIssues, levelSum]

theorem setTiming_levelSum (r : AnalysisResult) :
    levelSum (setTiming r) = levelSum r := by simp [levelSum]

theorem processLine_warnings_list (r : AnalysisResult) (line : String) :
    (processLine r line).warnings_list = r.warnings_list := by
  unfold processLine; dsimp only; split <;> simp

theorem processLine_critical_issues (r : AnalysisResult) (line : String) :
    (processLine r line).critical_issues = r.critical_issues := by
  unfold processLine; dsimp only; split <;> simp

theorem processLine_total_lines (r : AnalysisResult) (line : String) :
    (processLine r line).total_lines = r.total_lines + 1 := by
  unfold processLine; dsimp only; split
  · rfl
  · rw [updateMetrics_total_lines]

theorem processLine_entries_le (r : AnalysisResult) (line : String) :
    (processLine r line).entries.length ≤ r.entries.length + 1 := by
  unfold processLine; dsimp only; split
  · simp
  · rw [updateMetrics_entries]; simp

theorem processLine_levelSum_entries (r : AnalysisResult) (line : String) :
    levelSum (processLine r line) + r.entries.length ≤
      levelSum r + (processLine r line).entries.length := by
  unfold processLine; dsimp only; split
  · simp [levelSum]
  · rw [updateMetrics_entries]
    refine le_trans (Nat.add_le_add_right (updateMetrics_levelSum _ _) _) ?_
    simp [levelSum]
    omega

theorem foldl_processLine_warnings_list (lines : List String) :
    ∀ r : AnalysisResult, (lines.foldl processLine r).warnings_list = r.warnings_list := by
  induction lines with
  | nil => intro r; rfl
  | cons l ls ih => intro r; rw [List.foldl_cons, ih, processLine_warnings_list]

theorem foldl_processLine_critical_issues (lines : List String) :
    ∀ r : AnalysisResult, (lines.foldl processLine r).critical_issues = r.critical_issues := by
  induction lines with
  | nil => intro r; rfl
  | cons l ls ih => intro r; rw [List.foldl_cons, ih, processLine_critical_issues]

theorem runParse_warnings_list (path : String) (lines : List String) :
    (runParse path lines).warnings_list = [] := by
  unfold runParse
  rw [foldl_processLine_warnings_list]
  rfl

theorem runParse_critical_issues (path : String) (lines : List String) :
    (runParse path lines).critical_issues = [] := by
  unfold runParse
  rw [foldl_processLine_critical_issues]
  rfl

theorem foldl_processLine_inv (lines : List String) :
    ∀ r : AnalysisResult,
      levelSum r ≤ r.entries.length → r.entries.length ≤ r.total_lines →
      levelSum (lines.foldl processLine r) ≤ (lines.foldl processLine r).entries.length ∧
        (lines.foldl processLine r).entries.length ≤ (lines.foldl processLine r).total_lines := by
  induction lines with
  | nil => intro r h1 h2; exact ⟨h1, h2⟩
  | cons l ls ih =>
      intro r h1 h2
      rw [List.foldl_cons]
      apply ih
      · have hc := processLine_levelSum_entries r l
        omega
      · have ha := processLine_total_lines r l
        have hb := processLine_entries_le r l
        omega

/-! ## Distinctness of the detector message strings (they differ inside
their literal prefixes, before any formatted number). -/

theorem disappearanceMsg_ne_serverZeroMsg (n : Nat) : disappearanceMsg n ≠ serverZeroMsg := by
  intro h
  have hP : (disappearanceMsg n).data.head? = some 'P' := rfl
  rw [h] at hP
  exact absurd hP (by decide)

theorem disappearanceMsg_ne_clientZeroMsg (n : Nat) : disappearanceMsg n ≠ clientZeroMsg := by
  intro h
  have hP : (disappearanceMsg n).data.head? = some 'P' := rfl
  rw [h] at hP
  exact absurd hP (by decide)

theorem serverZeroMsg_ne_clientZeroMsg : serverZeroMsg ≠ clientZeroMsg := by decide

theorem interpMsg_ne_mismatchMsg (n : Nat) (q : ℚ) : interpMsg n ≠ mismatchMsg q := by
  intro h
  have hI : (interpMsg n).data[5]? = some 'i' := rfl
  have hB : (mismatchMsg q).data[5]? = some 'b' := rfl
  rw [h, hB] at hI
  exact absurd hI (by decide)

theorem detectIssues_errors (path : String) (r : AnalysisResult) :
    (detectIssues path r).errors = r.errors := by simp [detectIssues]

theorem mem_ite_singleton {α : Type} (c : Prop) [Decidable c] (a b : α) :
    (a ∈ (if c then [b] else [])) ↔ (c ∧ a = b) := by
  split <;> simp_all

theorem analyzeFile_warnings_decomp (path : String) (lines : List String) :
    (analyzeFile path lines).warnings_list =
      (if 10 < (analyzeFile path lines).interpolation_warnings then
        [interpMsg (analyzeFile path lines).interpolation_warnings] else []) ++
      (if 0 < (analyzeFile path lines).snapshots_received ∧
          (1 : ℚ)/10 < ((analyzeFile path lines).baseline_mismatches : ℚ) /
            ((analyzeFile path lines).snapshots_received : ℚ) then
        [mismatchMsg (((analyzeFile path lines).baseline_mismatches : ℚ) /
          ((analyzeFile path lines).snapshots_received : ℚ))] else []) := by
  unfold analyzeFile
  rw [detectIssues_interpolation_warnings, detectIssues_snapshots_received,
      detectIssues_baseline_mismatches, detectIssues_warnings_list,
      setTiming_warnings_list, runParse_warnings_list]
  simp

theorem analyzeFile_critical_decomp (path : String) (lines : List String) :
    (analyzeFile path lines).critical_issues =
      (if 0 < (analyzeFile path lines).player_disappearances then
        [disappearanceMsg (analyzeFile path lines).player_disappearances] else []) ++
      ((if (analyzeFile path lines).snapshots_sent = 0 ∧ strIn "server" (pyLower path) = true then
         [serverZeroMsg] else []) ++
       (if (analyzeFile path lines).snapshots_received = 0 ∧ strIn "client" (pyLower path) = true then
         [clientZeroMsg] else [])) := by
  unfold analyzeFile
  rw [detectIssues_player_disappearances, detectIssues_snapshots_sent,
      detectIssues_snapshots_received, detectIssues_critical_issues,
      setTiming_critical_issues, runParse_critical_issues]
  simp

/-! ## Claim theorems -/

set_option maxRecDepth 200000 in
/-- C2: for every finalized AnalysisResult the high-baseline-mismatch
warning is in the warnings list iff `snapshots_received > 0` and
`baseline_mismatches / snapshots_received > 0.10` (exact-rational model of
the float comparison); with 100 snapshots received it fires at 11
mismatches and not at 10, and with 0 snapshots received the check is
skipped (here: 3 mismatches, 0 received, no warning). -/
theorem spec_c2 :
    (∀ (path : String) (lines : List String),
      ((∃ q : ℚ, mismatchMsg q ∈ (analyzeFile path lines).warnings_list) ↔
        (0 < (analyzeFile path lines).snapshots_received ∧
          (1 : ℚ)/10 < ((analyzeFile path lines).baseline_mismatches : ℚ) /
            ((analyzeFile path lines).snapshots_received : ℚ)))) ∧
    (analyzeFile "t.log" (List.replicate 100 snapLine ++ List.replicate 11 deltaLine)).snapshots_received = 100 ∧
    (analyzeFile "t.log" (List.replicate 100 snapLine ++ List.replicate 11 deltaLine)).baseline_mismatches = 11 ∧
    (analyzeFile "t.log" (List.replicate 100 snapLine ++ List.replicate 11 deltaLine)).warnings_list = [mismatchMsg ((11 : ℚ)/100)] ∧
    (analyzeFile "t.log" (List.replicate 100 snapLine ++ List.replicate 10 deltaLine)).baseline_mismatches = 10 ∧
    (analyzeFile "t.log" (List.replicate 100 snapLine ++ List.replicate 10 deltaLine)).warnings_list = [] ∧
    (analyzeFile "c.log" (List.replicate 3 deltaLine)).snapshots_received = 0 ∧
    (analyzeFile "c.log" (List.replicate 3 deltaLine)).warnings_list = [] := by
  refine ⟨?_, by with_unfolding_all decide, by with_unfolding_all decide,
    by with_unfolding_all decide, by with_unfolding_all decide, by with_unfolding_all decide,
    by with_unfolding_all decide, by with_unfolding_all decide⟩
  intro path lines
  rw [analyzeFile_warnings_decomp]
  simp only [List.mem_append, mem_ite_singleton]
  constructor
  · rintro ⟨q, hq | hq⟩
    · exact absurd hq.2.symm (interpMsg_ne_mismatchMsg _ _)
    · exact hq.1
  · intro h
    exact ⟨_, Or.inr ⟨h, rfl⟩⟩

set_option maxRecDepth 200000 in
/-- C7: the interpolation-warnings counter is incremented exactly once per
record with category INTERPOLATOR and level WARN, the high-interpolation
warning is in the warnings list iff the counter exceeds 10, a file of 9
such lines produces no warning, and a file of 11 such lines produces it. -/
theorem spec_c7 :
    (∀ (e : LogEntry) (r : AnalysisResult),
      (updateMetrics e r).interpolation_warnings =
        r.interpolation_warnings +
          (if e.category = "INTERPOLATOR" ∧ e.level = "WARN" then 1 else 0)) ∧
    (∀ (path : String) (lines : List String),
      ((∃ n : Nat, interpMsg n ∈ (analyzeFile path lines).warnings_list) ↔
        10 < (analyzeFile path lines).interpolation_warnings)) ∧
    (analyzeFile "t.log" (List.replicate 9 interpLine)).interpolation_warnings = 9 ∧
    (analyzeFile "t.log" (List.replicate 9 interpLine)).warnings_list = [] ∧
    (analyzeFile "t.log" (List.replicate 11 interpLine)).interpolation_warnings = 11 ∧
    (analyzeFile "t.log" (List.replicate 11 interpLine)).warnings_list = [interpMsg 11] := by
  refine ⟨updateMetrics_interpolation_warnings, ?_, by decide, by with_unfolding_all decide,
    by decide, by with_unfolding_all decide⟩
  intro path lines
  rw [analyzeFile_warnings_decomp]
  simp only [List.mem_append, mem_ite_singleton]
  constructor
  · rintro ⟨n, hn | hn⟩
    · exact hn.1
    · exact absurd hn.2 (interpMsg_ne_mismatchMsg _ _)
  · intro h
    exact ⟨_, Or.inl ⟨h, rfl⟩⟩

/-- C8: the "client received 0 snapshots" critical issue is present iff
`snapshots_received = 0` and the path contains "client" case-insensitively,
and the "server sent 0 snapshots" critical issue is present iff
`snapshots_sent = 0` and the path contains "server" case-insensitively;
for client_0.log with 0 snapshots received only the client issue fires,
and for server.log with 0 snapshots sent only the server issue fires. -/
theorem spec_c8 :
    (∀ (path : String) (lines : List String),
      (clientZeroMsg ∈ (analyzeFile path lines).critical_issues ↔
        ((analyzeFile path lines).snapshots_received = 0 ∧
          strIn "client" (pyLower path) = true)) ∧
      (serverZeroMsg ∈ (analyzeFile path lines).critical_issues ↔
        ((analyzeFile path lines).snapshots_sent = 0 ∧
          strIn "server" (pyLower path) = true))) ∧
    (analyzeFile "client_0.log" []).snapshots_received = 0 ∧
    clientZeroMsg ∈ (analyzeFile "client_0.log" []).critical_issues ∧
    serverZeroMsg ∉ (analyzeFile "client_0.log" []).critical_issues ∧
    (analyzeFile "server.log" []).snapshots_sent = 0 ∧
    serverZeroMsg ∈ (analyzeFile "server.log" []).critical_issues ∧
    clientZeroMsg ∉ (analyzeFile "server.log" []).critical_issues := by
  refine ⟨?_, by decide, by decide, by decide, by decide, by decide, by decide⟩
  intro path lines
  rw [analyzeFile_critical_decomp]
  constructor
  · constructor
    · intro hmem
      rcases List.mem_append.mp hmem with hq | hq
      · rw [mem_ite_singleton] at hq
        exact absurd hq.2.symm (disappearanceMsg_ne_clientZeroMsg _)
      · rcases List.mem_append.mp hq with hq | hq
        · rw [mem_ite_singleton] at hq
          exact absurd hq.2.symm serverZeroMsg_ne_clientZeroMsg
        · rw [mem_ite_singleton] at hq
          exact hq.1
    · intro h
      exact List.mem_append.mpr (Or.inr (List.mem_append.mpr
        (Or.inr ((mem_ite_singleton _ _ _).mpr ⟨h, rfl⟩))))
  · constructor
    · intro hmem
      rcases List.mem_append.mp hmem with hq | hq
      · rw [mem_ite_singleton] at hq
        exact absurd hq.2.symm (disappearanceMsg_ne_serverZeroMsg _)
      · rcases List.mem_append.mp hq with hq | hq
        · rw [mem_ite_singleton] at hq
          exact hq.1
        · rw [mem_ite_singleton] at hq
          exact absurd hq.2 serverZeroMsg_ne_clientZeroMsg
    · intro h
      exact List.mem_append.mpr (Or.inr (List.mem_append.mpr
        (Or.inl ((mem_ite_singleton _ _ _).mpr ⟨h, rfl⟩))))

/-- C10: each parsed record increments the four per-level counters by at
most one in total (the level rules are mutually exclusive), and at every
point of the pass over a file (after any prefix of the lines, and in the final
result) errors + warnings + info + debug ≤ structured-entry count ≤
total_lines. -/
theorem spec_c10 :
    (∀ (e : LogEntry) (r : AnalysisResult), levelSum (updateMetrics e r) ≤ levelSum r + 1) ∧
    (∀ (path : String) (lines : List String),
      levelSum (runParse path lines) ≤ (runParse path lines).entries.length ∧
        (runParse path lines).entries.length ≤ (runParse path lines).total_lines) ∧
    (∀ (path : String) (lines : List String),
      levelSum (analyzeFile path lines) ≤ (analyzeFile path lines).entries.length ∧
        (analyzeFile path lines).entries.length ≤ (analyzeFile path lines).total_lines) := by
  have hrun : ∀ (path : String) (lines : List String),
      levelSum (runParse path lines) ≤ (runParse path lines).entries.length ∧
        (runParse path lines).entries.length ≤ (runParse path lines).total_lines := by
    intro path lines
    exact foldl_processLine_inv lines (initResult path)
      (by simp [levelSum, initResult]) (by simp [initResult])
  refine ⟨updateMetrics_levelSum, hrun, ?_⟩
  intro path lines
  have h := hrun path lines
  unfold analyzeFile
  rw [detectIssues_levelSum, setTiming_levelSum, detectIssues_entries, setTiming_entries,
      detectIssues_total_lines, setTiming_total_lines]
  exact h

/-- C5: for every line the parser rejects (returns `none`, without raising),
the loop step leaves the result unchanged except for incrementing
total_lines by one — the structured-entry list, and hence the
structured-entry count, does not change; lines with malformed timestamps
such as `1.2.3` or `12` are rejected this way. -/
theorem spec_c5 :
    (∀ (line : String) (r : AnalysisResult),
      parseLine (pyStrip line) = none →
        processLine r line = { r with total_lines := r.total_lines + 1 }) ∧
    parseLine (pyStrip "[1.2.3] [INFO] [CAT] msg") = none ∧
    parseLine (pyStrip "[12] [INFO] [CAT] msg") = none ∧
    parseLine (pyStrip "random junk") = none := by
  refine ⟨?_, by decide, by decide, by decide⟩
  intro line r h
  unfold processLine
  dsimp only
  split
  · rfl
  · rename_i e heq
    rw [h] at heq
    exact Option.noConfusion heq

/-- Witness for C5 at a concrete malformed-timestamp line. -/
theorem spec_c5_witness :
    parseLine (pyStrip "[1.2.3] [INFO] [CAT] msg") = none ∧
    processLine (initResult "x.log") "[1.2.3] [INFO] [CAT] msg" =
      { initResult "x.log" with total_lines := (initResult "x.log").total_lines + 1 } :=
  ⟨by decide, spec_c5.1 "[1.2.3] [INFO] [CAT] msg" (initResult "x.log") (by decide)⟩

/-- C1 (failing input): a client log whose only line is "Baseline mismatch"
yields snapshots_received = 0 and baseline_mismatches = 1, and the
high-baseline-mismatch block of the framework summary generators then
fires its condition (`1 > 0 * 0.1`) and raises ZeroDivisionError
evaluating `mismatches*100//received` — the denominator is not checked
first there (only `_detect_issues` in analyze_test_logs.py checks it). -/
theorem spec_c1_division_by_zero :
    (analyzeClientLog 0 ["Baseline mismatch"]).snapshots_received = 0 ∧
    (analyzeClientLog 0 ["Baseline mismatch"]).baseline_mismatches = 1 ∧
    highMismatchLine (analyzeClientLog 0 ["Baseline mismatch"]) =
      SummaryLineOutcome.divByZero := by
  refine ⟨by decide, by decide, by with_unfolding_all decide⟩

/-- C3 (counterexample): in analyze_test_logs.py the per-file loop has no
missing-file guard, so with missing.log absent the run aborts with the
propagated exception instead of recording a per-file error entry and
producing a report over the remaining files. -/
theorem spec_c3_counterexample :
    analyzeAllFiles (fun p => if p = "ok.log" then some [] else none)
        ["missing.log", "ok.log"] =
      Except.error "FileNotFoundError" := rfl

/-- C3 (amended): in the test framework, a missing server.log is recorded
as the per-file error entry ("Log file not found") and the report is still
produced over the remaining files — here client_0.log is still analyzed;
a missing client log is skipped with no entry and analysis continues. -/
theorem spec_c3_amended :
    (analyzeLogsResults
      (fun p => if p = "d/client_0.log" then some ["Received snapshot #5"] else none)
      "d" 1).server = ServerLogResult.fileNotFound ∧
    (analyzeLogsResults
      (fun p => if p = "d/client_0.log" then some ["Received snapshot #5"] else none)
      "d" 1).clients = [analyzeClientLog 0 ["Received snapshot #5"]] ∧
    (analyzeClientLog 0 ["Received snapshot #5"]).snapshots_received = 1 ∧
    analyzeLogsResults (fun _ => none) "d" 1 =
      { server := ServerLogResult.fileNotFound, clients := [] } := by
  refine ⟨rfl, rfl, by decide, by with_unfolding_all decide⟩

/-- C6 (counterexample): the 5-disappearance scenario on a file whose path
contains "client" (as every real client log here does) produces a second
critical issue — `client_0.log` with the five CLIENT_ERROR lines has
player_disappearances = 5 and errors = 5 but two critical issues, not one. -/
theorem spec_c6_counterexample :
    (analyzeFile "client_0.log" (List.replicate 5 c6Line)).player_disappearances = 5 ∧
    (analyzeFile "client_0.log" (List.replicate 5 c6Line)).errors = 5 ∧
    (analyzeFile "client_0.log" (List.replicate 5 c6Line)).critical_issues =
      [disappearanceMsg 5, clientZeroMsg] := by
  refine ⟨by decide, by decide, by decide⟩

/-- C6 (amended): for a log file of exactly 5 structured CLIENT_ERROR/ERROR
lines with message "Player entity missing from snapshot", whose path
contains neither "client" nor "server" case-insensitively, the finalized
result has player_disappearances = 5, errors = 5, and exactly one critical
issue, which mentions "5". -/
theorem spec_c6_amended (path : String)
    (hc : strIn "client" (pyLower path) = false)
    (hs : strIn "server" (pyLower path) = false) :
    (analyzeFile path (List.replicate 5 c6Line)).player_disappearances = 5 ∧
    (analyzeFile path (List.replicate 5 c6Line)).errors = 5 ∧
    (analyzeFile path (List.replicate 5 c6Line)).critical_issues = [disappearanceMsg 5] ∧
    strIn "5" (disappearanceMsg 5) = true := by
  have hdis : (setTiming (runParse path (List.replicate 5 c6Line))).player_disappearances = 5 := by
    rw [setTiming_player_disappearances]; rfl
  have hsent : (setTiming (runParse path (List.replicate 5 c6Line))).snapshots_sent = 0 := by
    rw [setTiming_snapshots_sent]; rfl
  have hrecv : (setTiming (runParse path (List.replicate 5 c6Line))).snapshots_received = 0 := by
    rw [setTiming_snapshots_received]; rfl
  have herr : (setTiming (runParse path (List.replicate 5 c6Line))).errors = 5 := by
    rw [setTiming_errors]; rfl
  refine ⟨?_, ?_, ?_, by decide⟩
  · unfold analyzeFile
    rw [detectIssues_player_disappearances, hdis]
  · unfold analyzeFile
    rw [detectIssues_errors, herr]
  · unfold analyzeFile
    rw [detectIssues_critical_issues, setTiming_critical_issues, runParse_critical_issues,
        hdis, hsent, hrecv, hc, hs]
    simp

/-- Witness for C6 (amended) at the neutral path "test.log". -/
theorem spec_c6_witness :
    strIn "client" (pyLower "test.log") = false ∧
    strIn "server" (pyLower "test.log") = false ∧
    (analyzeFile "test.log" (List.replicate 5 c6Line)).critical_issues = [disappearanceMsg 5] :=
  ⟨by decide, by decide, (spec_c6_amended "test.log" (by decide) (by decide)).2.2.1⟩

/-- C9 (counterexample): the per-level `info` and `debug` counters of the
in-memory AnalysisResult do not appear in the emitted JSON per-file entry
at all — for a file with one INFO line, `info = 1` in memory but the JSON
entry has no "info" (and no "debug") key. -/
theorem spec_c9_counterexample :
    (analyzeFile "app.log" ["[1.0] [INFO] [STARTUP] engine ready"]).info = 1 ∧
    List.lookup "info"
      (jsonFileEntry (analyzeFile "app.log" ["[1.0] [INFO] [STARTUP] engine ready"])) = none ∧
    List.lookup "debug"
      (jsonFileEntry (analyzeFile "app.log" ["[1.0] [INFO] [STARTUP] engine ready"])) = none := by
  refine ⟨by decide, rfl, rfl⟩

theorem foldl_summaryStep_total_errors (results : List AnalysisResult) :
    ∀ s : SummaryAcc,
      (results.foldl summaryStep s).total_errors =
        s.total_errors + (results.map (fun r => r.errors)).sum := by
  induction results with
  | nil => intro s; simp
  | cons r rs ih =>
      intro s
      rw [List.foldl_cons, ih]
      simp [summaryStep]
      omega

theorem foldl_summaryStep_total_warnings (results : List AnalysisResult) :
    ∀ s : SummaryAcc,
      (results.foldl summaryStep s).total_warnings =
        s.total_warnings + (results.map (fun r => r.warnings)).sum := by
  induction results with
  | nil => intro s; simp
  | cons r rs ih =>
      intro s
      rw [List.foldl_cons, ih]
      simp [summaryStep]
      omega

theorem foldl_summaryStep_total_snapshots_sent (results : List AnalysisResult) :
    ∀ s : SummaryAcc,
      (results.foldl summaryStep s).total_snapshots_sent =
        s.total_snapshots_sent + (results.map (fun r => r.snapshots_sent)).sum := by
  induction results with
  | nil => intro s; simp
  | cons r rs ih =>
      intro s
      rw [List.foldl_cons, ih]
      simp [summaryStep]
      omega

theorem foldl_summaryStep_total_snapshots_received (results : List AnalysisResult) :
    ∀ s : SummaryAcc,
      (results.foldl summaryStep s).total_snapshots_received =
        s.total_snapshots_received + (results.map (fun r => r.snapshots_received)).sum := by
  induction results with
  | nil => intro s; simp
  | cons r rs ih =>
      intro s
      rw [List.foldl_cons, ih]
      simp [summaryStep]
      omega

theorem foldl_summaryStep_total_player_disappearances (results : List AnalysisResult) :
    ∀ s : SummaryAcc,
      (results.foldl summaryStep s).total_player_disappearances =
        s.total_player_disappearances + (results.map (fun r => r.player_disappearances)).sum := by
  induction results with
  | nil => intro s; simp
  | cons r rs ih =>
      intro s
      rw [List.foldl_cons, ih]
      simp [summaryStep]
      omega

theorem foldl_summaryStep_total_interpolation_warnings (results : List AnalysisResult) :
    ∀ s : SummaryAcc,
      (results.foldl summaryStep s).total_interpolation_warnings =
        s.total_interpolation_warnings + (results.map (fun r => r.interpolation_warnings)).sum := by
  induction results with
  | nil => intro s; simp
  | cons r rs ih =>
      intro s
      rw [List.foldl_cons, ih]
      simp [summaryStep]
      omega


theorem calculateSummary_total_errors (results : List AnalysisResult) :
    List.lookup "total_errors" (calculateSummary results) =
      some (JVal.num (((results.map (fun x => x.errors)).sum : Nat) : ℚ)) := by
  have h := foldl_summaryStep_total_errors results {}
  unfold calculateSummary
  dsimp only
  rw [h]
  simp [List.lookup]

theorem calculateSummary_total_warnings (results : List AnalysisResult) :
    List.lookup "total_warnings" (calculateSummary results) =
      some (JVal.num (((results.map (fun x => x.warnings)).sum : Nat) : ℚ)) := by
  have h := foldl_summaryStep_total_warnings results {}
  unfold calculateSummary
  dsimp only
  rw [h]
  simp [List.lookup]

theorem calculateSummary_total_snapshots_sent (results : List AnalysisResult) :
    List.lookup "total_snapshots_sent" (calculateSummary results) =
      some (JVal.num (((results.map (fun x => x.snapshots_sent)).sum : Nat) : ℚ)) := by
  have h := foldl_summaryStep_total_snapshots_sent results {}
  unfold calculateSummary
  dsimp only
  rw [h]
  simp [List.lookup]

theorem calculateSummary_total_snapshots_received (results : List AnalysisResult) :
    List.lookup "total_snapshots_received" (calculateSummary results) =
      some (JVal.num (((results.map (fun x => x.snapshots_received)).sum : Nat) : ℚ)) := by
  have h := foldl_summaryStep_total_snapshots_received results {}
  unfold calculateSummary
  dsimp only
  rw [h]
  simp [List.lookup]

theorem calculateSummary_total_player_disappearances (results : List AnalysisResult) :
    List.lookup "total_player_disappearances" (calculateSummary results) =
      some (JVal.num (((results.map (fun x => x.player_disappearances)).sum : Nat) : ℚ)) := by
  have h := foldl_summaryStep_total_player_disappearances results {}
  unfold calculateSummary
  dsimp only
  rw [h]
  simp [List.lookup]

theorem calculateSummary_total_interpolation_warnings (results : List AnalysisResult) :
    List.lookup "total_interpolation_warnings" (calculateSummary results) =
      some (JVal.num (((results.map (fun x => x.interpolation_warnings)).sum : Nat) : ℚ)) := by
  have h := foldl_summaryStep_total_interpolation_warnings results {}
  unfold calculateSummary
  dsimp only
  rw [h]
  simp [List.lookup]

/-- C9 (amended): every counter that the JSON report does emit round-trips
exactly — each per-file key holds the equal in-memory value, `entries` is
the structured-entry count, `duration` is `end_time - start_time`, and each
cross-file summary total equals the sum over the files — but the per-level
`info` and `debug` counters are omitted from the per-file entries. -/
theorem spec_c9_amended (results : List AnalysisResult) (r : AnalysisResult) :
    List.lookup "filename" (jsonFileEntry r) = some (.str r.filename) ∧
    List.lookup "total_lines" (jsonFileEntry r) = some (.num r.total_lines) ∧
    List.lookup "entries" (jsonFileEntry r) = some (.num r.entries.length) ∧
    List.lookup "errors" (jsonFileEntry r) = some (.num r.errors) ∧
    List.lookup "warnings" (jsonFileEntry r) = some (.num r.warnings) ∧
    List.lookup "snapshots_sent" (jsonFileEntry r) = some (.num r.snapshots_sent) ∧
    List.lookup "snapshots_received" (jsonFileEntry r) = some (.num r.snapshots_received) ∧
    List.lookup "packet_loss_events" (jsonFileEntry r) = some (.num r.packet_loss_events) ∧
    List.lookup "baseline_mismatches" (jsonFileEntry r) = some (.num r.baseline_mismatches) ∧
    List.lookup "player_disappearances" (jsonFileEntry r) = some (.num r.player_disappearances) ∧
    List.lookup "interpolation_warnings" (jsonFileEntry r) = some (.num r.interpolation_warnings) ∧
    List.lookup "chunk_changes" (jsonFileEntry r) = some (.num r.chunk_changes) ∧
    List.lookup "critical_issues" (jsonFileEntry r) = some (.strList r.critical_issues) ∧
    List.lookup "warnings_list" (jsonFileEntry r) = some (.strList r.warnings_list) ∧
    List.lookup "duration" (jsonFileEntry r) = some (.num (r.end_time - r.start_time)) ∧
    List.lookup "info" (jsonFileEntry r) = none ∧
    List.lookup "debug" (jsonFileEntry r) = none ∧
    List.lookup "total_errors" (generateJsonReport results).summary =
      some (JVal.num (((results.map (fun x => x.errors)).sum : Nat) : ℚ)) ∧
    List.lookup "total_warnings" (generateJsonReport results).summary =
      some (JVal.num (((results.map (fun x => x.warnings)).sum : Nat) : ℚ)) ∧
    List.lookup "total_snapshots_sent" (generateJsonReport results).summary =
      some (JVal.num (((results.map (fun x => x.snapshots_sent)).sum : Nat) : ℚ)) ∧
    List.lookup "total_snapshots_received" (generateJsonReport results).summary =
      some (JVal.num (((results.map (fun x => x.snapshots_received)).sum : Nat) : ℚ)) ∧
    List.lookup "total_player_disappearances" (generateJsonReport results).summary =
      some (JVal.num (((results.map (fun x => x.player_disappearances)).sum : Nat) : ℚ)) ∧
    List.lookup "total_interpolation_warnings" (generateJsonReport results).summary =
      some (JVal.num (((results.map (fun x => x.interpolation_warnings)).sum : Nat) : ℚ)) ∧
    (generateJsonReport results).files = results.map jsonFileEntry :=
  ⟨rfl, rfl, rfl, rfl, rfl, rfl, rfl, rfl, rfl, rfl, rfl, rfl, rfl, rfl, rfl, rfl, rfl,
    calculateSummary_total_errors results,
    calculateSummary_total_warnings results,
    calculateSummary_total_snapshots_sent results,
    calculateSummary_total_snapshots_received results,
    calculateSummary_total_player_disappearances results,
    calculateSummary_total_interpolation_warnings results,
    rfl⟩

/-! ## List lemmas for the parser round-trip -/

theorem takeWhile_append_all {p : Char → Bool} :
    ∀ {l₁ l₂ : List Char}, (∀ a ∈ l₁, p a = true) →
      (l₁ ++ l₂).takeWhile p = l₁ ++ l₂.takeWhile p := by
  intro l₁
  induction l₁ with
  | nil => intro l₂ _; simp
  | cons c rest ih =>
      intro l₂ h
      have hc : p c = true := h c (by simp)
      simp only [List.cons_append, List.takeWhile_cons, hc]
      rw [ih fun a ha => h a (by simp [ha])]
      simp

theorem dropWhile_append_all {p : Char → Bool} :
    ∀ {l₁ l₂ : List Char}, (∀ a ∈ l₁, p a = true) →
      (l₁ ++ l₂).dropWhile p = l₂.dropWhile p := by
  intro l₁
  induction l₁ with
  | nil => intro l₂ _; simp
  | cons c rest ih =>
      intro l₂ h
      have hc : p c = true := h c (by simp)
      simp only [List.cons_append, List.dropWhile_cons, hc]
      exact ih fun a ha => h a (by simp [ha])

theorem takeWhile_cons_false {p : Char → Bool} {c : Char} (l : List Char) (hc : p c = false) :
    (c :: l).takeWhile p = [] := by
  simp [List.takeWhile_cons, hc]

theorem dropWhile_cons_false {p : Char → Bool} {c : Char} (l : List Char) (hc : p c = false) :
    (c :: l).dropWhile p = c :: l := by
  simp [List.dropWhile_cons, hc]

theorem takeWhile_cons_true {p : Char → Bool} {c : Char} (l : List Char) (hc : p c = true) :
    (c :: l).takeWhile p = c :: l.takeWhile p := by
  simp [List.takeWhile_cons, hc]

theorem dropWhile_cons_true {p : Char → Bool} {c : Char} (l : List Char) (hc : p c = true) :
    (c :: l).dropWhile p = l.dropWhile p := by
  simp [List.dropWhile_cons, hc]

theorem chomp (p : Char → Bool) (grp : List Char) (c : Char) (rest : List Char)
    (hall : ∀ a ∈ grp, p a = true) (hc : p c = false) :
    (grp ++ c :: rest).takeWhile p = grp ∧ (grp ++ c :: rest).dropWhile p = c :: rest := by
  constructor
  · rw [takeWhile_append_all hall, takeWhile_cons_false rest hc, List.append_nil]
  · rw [dropWhile_append_all hall, dropWhile_cons_false rest hc]

theorem idxOfPipe_eq_none {l : List Char} (h : ∀ a ∈ l, a ≠ '|') :
    idxOfPipe l = none := by
  induction l with
  | nil => rfl
  | cons c rest ih =>
      have hc : ¬(c = '|') := h c (by simp)
      simp only [idxOfPipe, if_neg hc]
      rw [ih fun a ha => h a (by simp [ha])]
      rfl

theorem idxOfPipe_append {l₁ : List Char} (l₂ : List Char) (h : ∀ a ∈ l₁, a ≠ '|') :
    idxOfPipe (l₁ ++ '|' :: l₂) = some l₁.length := by
  induction l₁ with
  | nil => simp [idxOfPipe]
  | cons c rest ih =>
      have hc : ¬(c = '|') := h c (by simp)
      simp only [List.cons_append, idxOfPipe, if_neg hc, List.append_eq]
      rw [ih fun a ha => h a (by simp [ha])]
      simp

theorem dropWhile_length_lt {p : Char → Bool} :
    ∀ l : List Char, (l.dropWhile p).length ≤ l.length := by
  intro l
  induction l with
  | nil => simp
  | cons c rest ih =>
      by_cases hc : p c = true
      · rw [dropWhile_cons_true rest hc]; simp; omega
      · rw [dropWhile_cons_false rest (by simpa using hc)]

theorem dropWhile_eq_self_of_length {p : Char → Bool} :
    ∀ l : List Char, (l.dropWhile p).length = l.length → l.dropWhile p = l := by
  intro l
  cases l with
  | nil => intro _; rfl
  | cons c rest =>
      intro hlen
      by_cases hc : p c = true
      · rw [dropWhile_cons_true rest hc] at hlen ⊢
        have := dropWhile_length_lt (p := p) rest
        simp at hlen
        omega
      · rw [dropWhile_cons_false rest (by simpa using hc)]

/-- A strip-fixed string yields fixed points for both whitespace-dropping
passes. -/
theorem strip_fixed_decomp {l : List Char} (h : pyStripList l = l) :
    l.dropWhile isWsC = l ∧ l.reverse.dropWhile isWsC = l.reverse := by
  have hlen1 : (l.dropWhile isWsC).length ≤ l.length := dropWhile_length_lt l
  have hlen2 : ((l.dropWhile isWsC).reverse.dropWhile isWsC).length ≤ (l.dropWhile isWsC).length := by
    have := dropWhile_length_lt (p := isWsC) (l.dropWhile isWsC).reverse
    simpa using this
  have hlentot : (pyStripList l).length = l.length := by rw [h]
  unfold pyStripList at hlentot
  simp only [List.length_reverse] at hlentot
  have hstep1 : (l.dropWhile isWsC).length = l.length := by omega
  have hfix1 : l.dropWhile isWsC = l := dropWhile_eq_self_of_length l hstep1
  refine ⟨hfix1, ?_⟩
  have h2 : (l.reverse.dropWhile isWsC).reverse = l := by
    have := h
    unfold pyStripList at this
    rw [hfix1] at this
    exact this
  have h3 := congrArg List.reverse h2
  simpa only [List.reverse_reverse] using h3

theorem expectChar_cons_self (c : Char) (rest : List Char) :
    expectChar c (c :: rest) = some rest := by
  simp [expectChar]

theorem munch1_chomp (p : Char → Bool) (grp : List Char) (c : Char) (rest : List Char)
    (hall : ∀ a ∈ grp, p a = true) (hne : grp ≠ []) (hc : p c = false) :
    munch1 p (grp ++ c :: rest) = some (grp, c :: rest) := by
  obtain ⟨g0, grest, rfl⟩ := List.exists_cons_of_ne_nil hne
  unfold munch1
  rw [(chomp p _ c rest hall hc).1, (chomp p _ c rest hall hc).2]
  simp

theorem munch1_single (p : Char → Bool) (a b : Char) (rest : List Char)
    (ha : p a = true) (hb : p b = false) :
    munch1 p (a :: b :: rest) = some ([a], b :: rest) := by
  have h := munch1_chomp p [a] b rest (by simpa using ha) (by simp) hb
  simpa using h

theorem head_not_ws_of_fix {c : Char} {rest : List Char}
    (F1 : (c :: rest).dropWhile isWsC = c :: rest) : isWsC c = false := by
  by_cases h : isWsC c = true
  · rw [dropWhile_cons_true rest h] at F1
    have hlt := dropWhile_length_lt (p := isWsC) rest
    have hlen := congrArg List.length F1
    simp at hlen
    omega
  · simpa using h

/-- Strip of the message group with the single trailing space that the
metadata separator contributes. -/
theorem pyStripList_append_space {l : List Char} (hne : l ≠ [])
    (hfix : pyStripList l = l) : pyStripList (l ++ [' ']) = l := by
  obtain ⟨F1, F2⟩ := strip_fixed_decomp hfix
  obtain ⟨c, rest, rfl⟩ := List.exists_cons_of_ne_nil hne
  have hc : isWsC c = false := head_not_ws_of_fix F1
  unfold pyStripList
  rw [show (c :: rest) ++ [' '] = c :: (rest ++ [' ']) from rfl]
  rw [dropWhile_cons_false _ hc]
  rw [show (c :: (rest ++ [' '])).reverse = ' ' :: (c :: rest).reverse by simp]
  rw [dropWhile_cons_true _ (by decide), F2]
  simp

/-- Tail match without a metadata segment: the third whitespace run is the
single separator space, the message group is everything after it. -/
theorem matchTail_no_meta (mc : Char) (mrest : List Char)
    (hmc : isWsC mc = false) (hp : ∀ a ∈ mc :: mrest, a ≠ '|') :
    matchTail (' ' :: mc :: mrest) = some (mc :: mrest, none) := by
  have hidx : idxOfPipe (' ' :: mc :: mrest) = none := by
    apply idxOfPipe_eq_none
    intro a ha
    rcases List.mem_cons.mp ha with h | h
    · subst h; decide
    · exact hp a h
  unfold matchTail
  rw [takeWhile_cons_true _ (by decide), takeWhile_cons_false _ hmc, hidx]
  simp

/-- Tail match with a metadata segment: the message group is everything up
to the first pipe (including the separator space before it), and the
metadata group is everything after the pipe with the single following
space consumed. -/
theorem matchTail_with_meta (mc nc : Char) (mrest nrest : List Char)
    (hmc : isWsC mc = false) (hnc : isWsC nc = false)
    (hp : ∀ a ∈ mc :: mrest, a ≠ '|') :
    matchTail (' ' :: mc :: (mrest ++ ' ' :: '|' :: ' ' :: nc :: nrest)) =
      some (mc :: (mrest ++ [' ']), some (nc :: nrest)) := by
  have hidx : idxOfPipe (' ' :: mc :: (mrest ++ ' ' :: '|' :: ' ' :: nc :: nrest)) =
      some (mrest.length + 3) := by
    have hform : ' ' :: mc :: (mrest ++ ' ' :: '|' :: ' ' :: nc :: nrest) =
        (' ' :: mc :: (mrest ++ [' '])) ++ '|' :: (' ' :: nc :: nrest) := by simp
    rw [hform]
    rw [idxOfPipe_append _ ?hall]
    case hall =>
      intro a ha
      simp only [List.mem_cons, List.mem_append, List.mem_singleton] at ha
      rcases ha with h | h | h | h
      · rw [h]; decide
      · rw [h]; exact hp mc (by simp)
      · exact hp a (by simp [h])
      · rcases h with h2 | h2
        · rw [h2]; decide
        · simp at h2
    simp
  unfold matchTail
  rw [takeWhile_cons_true _ (by decide), takeWhile_cons_false _ hmc, hidx]
  simp only [List.length_cons, List.length_nil, Nat.zero_add]
  rw [if_neg (by omega : ¬(1 = 0)), if_neg (by omega : ¬(mrest.length + 3 < 2))]
  have hk : min 1 (mrest.length + 3 - 1) = 1 := by omega
  rw [hk]
  have hdrop1 : (' ' :: mc :: (mrest ++ ' ' :: '|' :: ' ' :: nc :: nrest)).drop 1 =
      mc :: (mrest ++ ' ' :: '|' :: ' ' :: nc :: nrest) := rfl
  rw [hdrop1]
  have hmsgG : (mc :: (mrest ++ ' ' :: '|' :: ' ' :: nc :: nrest)).take (mrest.length + 3 - 1) =
      mc :: (mrest ++ [' ']) := by
    have hform : mc :: (mrest ++ ' ' :: '|' :: ' ' :: nc :: nrest) =
        (mc :: (mrest ++ [' '])) ++ '|' :: ' ' :: nc :: nrest := by simp
    rw [hform]
    rw [show mrest.length + 3 - 1 = (mc :: (mrest ++ [' '])).length by simp]
    exact List.take_left _ _
  rw [hmsgG]
  have htail : (' ' :: mc :: (mrest ++ ' ' :: '|' :: ' ' :: nc :: nrest)).drop
      (mrest.length + 3 + 1) = ' ' :: nc :: nrest := by
    have hform : ' ' :: mc :: (mrest ++ ' ' :: '|' :: ' ' :: nc :: nrest) =
        (' ' :: mc :: (mrest ++ [' ', '|'])) ++ ' ' :: nc :: nrest := by simp
    rw [hform]
    rw [show mrest.length + 3 + 1 = (' ' :: mc :: (mrest ++ [' ', '|'])).length by simp]
    exact List.drop_left _ _
  rw [htail]
  rw [takeWhile_cons_true _ (by decide), takeWhile_cons_false _ hnc]
  simp

theorem matchLogPattern_mkLine_no_meta (d1 d2 : List Char) (lvl cat msg : String)
    (hd1 : d1 ≠ []) (hd1d : ∀ c ∈ d1, isDigitC c = true)
    (hd2 : d2 ≠ []) (hd2d : ∀ c ∈ d2, isDigitC c = true)
    (hlvl : lvl.data ≠ []) (hlvld : ∀ c ∈ lvl.data, isWordC c = true)
    (hcat : cat.data ≠ []) (hcatd : ∀ c ∈ cat.data, notRBracket c = true)
    (mc : Char) (mrest : List Char) (hm : msg.data = mc :: mrest)
    (hmc : isWsC mc = false) (hmsgp : ∀ a ∈ msg.data, a ≠ '|') :
    matchLogPattern (mkLine d1 d2 lvl cat msg none).data =
      some (d1, d2, lvl.data, cat.data, msg.data, none) := by
  have hdata : (mkLine d1 d2 lvl cat msg none).data =
      '[' :: (d1 ++ '.' :: (d2 ++ ']' :: ' ' :: '[' ::
        (lvl.data ++ ']' :: ' ' :: '[' :: (cat.data ++ ']' :: ' ' :: msg.data)))) := by
    simp [mkLine]
  rw [hdata, hm]
  unfold matchLogPattern
  rw [expectChar_cons_self]
  simp only [Option.some_bind]
  rw [munch1_chomp isDigitC d1 '.' _ hd1d hd1 (by decide)]
  simp only [Option.some_bind]
  rw [expectChar_cons_self]
  simp only [Option.some_bind]
  rw [munch1_chomp isDigitC d2 ']' _ hd2d hd2 (by decide)]
  simp only [Option.some_bind]
  rw [expectChar_cons_self]
  simp only [Option.some_bind]
  rw [munch1_single isWsC ' ' '[' _ (by decide) (by decide)]
  simp only [Option.some_bind]
  rw [expectChar_cons_self]
  simp only [Option.some_bind]
  rw [munch1_chomp isWordC lvl.data ']' _ hlvld hlvl (by decide)]
  simp only [Option.some_bind]
  rw [expectChar_cons_self]
  simp only [Option.some_bind]
  rw [munch1_single isWsC ' ' '[' _ (by decide) (by decide)]
  simp only [Option.some_bind]
  rw [expectChar_cons_self]
  simp only [Option.some_bind]
  rw [munch1_chomp notRBracket cat.data ']' _ hcatd hcat (by decide)]
  simp only [Option.some_bind]
  rw [expectChar_cons_self]
  simp only [Option.some_bind]
  rw [matchTail_no_meta mc mrest hmc (hm ▸ hmsgp)]
  simp

theorem matchLogPattern_mkLine_with_meta (d1 d2 : List Char) (lvl cat msg m : String)
    (hd1 : d1 ≠ []) (hd1d : ∀ c ∈ d1, isDigitC c = true)
    (hd2 : d2 ≠ []) (hd2d : ∀ c ∈ d2, isDigitC c = true)
    (hlvl : lvl.data ≠ []) (hlvld : ∀ c ∈ lvl.data, isWordC c = true)
    (hcat : cat.data ≠ []) (hcatd : ∀ c ∈ cat.data, notRBracket c = true)
    (mc : Char) (mrest : List Char) (hm : msg.data = mc :: mrest)
    (hmc : isWsC mc = false) (hmsgp : ∀ a ∈ msg.data, a ≠ '|')
    (nc : Char) (nrest : List Char) (hn : m.data = nc :: nrest)
    (hnc : isWsC nc = false) :
    matchLogPattern (mkLine d1 d2 lvl cat msg (some m)).data =
      some (d1, d2, lvl.data, cat.data, mc :: (mrest ++ [' ']), some m.data) := by
  have hdata : (mkLine d1 d2 lvl cat msg (some m)).data =
      '[' :: (d1 ++ '.' :: (d2 ++ ']' :: ' ' :: '[' ::
        (lvl.data ++ ']' :: ' ' :: '[' :: (cat.data ++ ']' :: ' ' ::
          (msg.data ++ ' ' :: '|' :: ' ' :: m.data))))) := by
    simp [mkLine]
  rw [hdata, hm, hn]
  unfold matchLogPattern
  rw [expectChar_cons_self]
  simp only [Option.some_bind]
  rw [munch1_chomp isDigitC d1 '.' _ hd1d hd1 (by decide)]
  simp only [Option.some_bind]
  rw [expectChar_cons_self]
  simp only [Option.some_bind]
  rw [munch1_chomp isDigitC d2 ']' _ hd2d hd2 (by decide)]
  simp only [Option.some_bind]
  rw [expectChar_cons_self]
  simp only [Option.some_bind]
  rw [munch1_single isWsC ' ' '[' _ (by decide) (by decide)]
  simp only [Option.some_bind]
  rw [expectChar_cons_self]
  simp only [Option.some_bind]
  rw [munch1_chomp isWordC lvl.data ']' _ hlvld hlvl (by decide)]
  simp only [Option.some_bind]
  rw [expectChar_cons_self]
  simp only [Option.some_bind]
  rw [munch1_single isWsC ' ' '[' _ (by decide) (by decide)]
  simp only [Option.some_bind]
  rw [expectChar_cons_self]
  simp only [Option.some_bind]
  rw [munch1_chomp notRBracket cat.data ']' _ hcatd hcat (by decide)]
  simp only [Option.some_bind]
  rw [expectChar_cons_self]
  simp only [Option.some_bind]
  rw [show (mc :: mrest) ++ ' ' :: '|' :: ' ' :: nc :: nrest =
      mc :: (mrest ++ ' ' :: '|' :: ' ' :: nc :: nrest) from rfl]
  rw [matchTail_with_meta mc nc mrest nrest hmc hnc (hm ▸ hmsgp)]
  simp

/-- C4: for every line built from grammar fields — digits-dot-digits
timestamp, word-character level, bracket-free category, pipe-free
whitespace-trimmed message, optional whitespace-trimmed metadata segment —
the parser yields the LogRecord whose timestamp is the value of the
timestamp token, whose level/category/message are the source fields, and
whose metadata is the whitespace-split first-equals key-value mapping with
tokens lacking an equals dropped and the last duplicate winning (shown
concretely on "a=1 b=2 a=3 junk"). -/
theorem spec_c4 (d1 d2 : List Char) (lvl cat msg : String) (meta : Option String)
    (hd1 : d1 ≠ []) (hd1d : ∀ c ∈ d1, isDigitC c = true)
    (hd2 : d2 ≠ []) (hd2d : ∀ c ∈ d2, isDigitC c = true)
    (hlvl : lvl.data ≠ []) (hlvld : ∀ c ∈ lvl.data, isWordC c = true)
    (hcat : cat.data ≠ []) (hcatd : ∀ c ∈ cat.data, notRBracket c = true)
    (hmsg : msg.data ≠ []) (hmsgp : ∀ a ∈ msg.data, a ≠ '|')
    (hmsgs : pyStrip msg = msg)
    (hmeta : ∀ m ∈ meta, m.data ≠ [] ∧ pyStrip m = m) :
    parseLine (mkLine d1 d2 lvl cat msg meta) =
      some { timestamp := ratOfTimestamp d1 d2
             level := lvl
             category := cat
             message := msg
             metadata := match meta with
                         | none => []
                         | some m => parseMetadata m
             raw_line := mkLine d1 d2 lvl cat msg meta } ∧
    parseMetadata "a=1 b=2 a=3 junk" = [("a", "3"), ("b", "2")] := by
  refine ⟨?_, by decide⟩
  have hfix : pyStripList msg.data = msg.data := congrArg String.data hmsgs
  obtain ⟨mc, mrest, hm⟩ := List.exists_cons_of_ne_nil hmsg
  have hmc : isWsC mc = false :=
    head_not_ws_of_fix (by rw [← hm]; exact (strip_fixed_decomp hfix).1)
  cases meta with
  | none =>
      unfold parseLine
      rw [matchLogPattern_mkLine_no_meta d1 d2 lvl cat msg hd1 hd1d hd2 hd2d hlvl hlvld
        hcat hcatd mc mrest hm hmc hmsgp]
      dsimp only
      rw [show (⟨msg.data⟩ : String) = msg from rfl, hmsgs]
  | some m =>
      obtain ⟨hmne, hmstrip⟩ := hmeta m (by simp)
      have hnfix : pyStripList m.data = m.data := congrArg String.data hmstrip
      obtain ⟨nc, nrest, hn⟩ := List.exists_cons_of_ne_nil hmne
      have hnc : isWsC nc = false :=
        head_not_ws_of_fix (by rw [← hn]; exact (strip_fixed_decomp hnfix).1)
      unfold parseLine
      rw [matchLogPattern_mkLine_with_meta d1 d2 lvl cat msg m hd1 hd1d hd2 hd2d hlvl hlvld
        hcat hcatd mc mrest hm hmc hmsgp nc nrest hn hnc]
      dsimp only
      have hstrip2 : pyStrip ⟨mc :: (mrest ++ [' '])⟩ = msg := by
        show pyStrip ⟨(mc :: mrest) ++ [' ']⟩ = msg
        rw [← hm]
        show (⟨pyStripList (msg.data ++ [' '])⟩ : String) = msg
        rw [pyStripList_append_space hmsg hfix]
      rw [hstrip2]

/-- Witness for C4 at a concrete structured line with duplicate metadata
keys and a key-less token. -/
theorem spec_c4_witness :
    (['1', '2'] : List Char) ≠ [] ∧
    pyStrip "hello world" = "hello world" ∧
    parseLine (mkLine ['1', '2'] ['5'] "INFO" "CAT" "hello world" (some "a=1 b=2 a=3 junk")) =
      some { timestamp := ratOfTimestamp ['1', '2'] ['5']
             level := "INFO"
             category := "CAT"
             message := "hello world"
             metadata := parseMetadata "a=1 b=2 a=3 junk"
             raw_line := mkLine ['1', '2'] ['5'] "INFO" "CAT" "hello world"
               (some "a=1 b=2 a=3 junk") } :=
  ⟨by decide, by decide,
    (spec_c4 ['1', '2'] ['5'] "INFO" "CAT" "hello world" (some "a=1 b=2 a=3 junk")
      (by decide) (by decide) (by decide) (by decide) (by decide) (by decide)
      (by decide) (by decide) (by decide) (by decide) (by decide)
      (fun m hm => by
        simp only [Option.mem_def, Option.some.injEq] at hm
        subst hm
        exact ⟨by decide, by decide⟩)).1⟩
